import Mathlib

/-!
Verification of the tracking state-transition engine
(`src/services/trackingService.ts` plus the storage constraints of
`database/migrations/001_add_tracking_constraints.sql`).

The service is embedded shallowly: the Postgres `trackings` table becomes a
`Store` (a list of rows plus the serial id counter), each `db.query` becomes an
explicit state-passing function, and a thrown JavaScript `Error` becomes the
`.error` branch of `Except JsError`.  Because the TypeScript code runs each
statement as an independent query (no transaction), every operation returns
the store it leaves behind even when it fails: mutations performed before a
throw persist, exactly as in the source.

Timestamps are integers (epoch seconds).  The audit columns `created_at` /
`updated_at` are set from a `now : Timestamp` argument that models
`CURRENT_TIMESTAMP` (including the `updated_at` trigger of migration 001).
-/

namespace Tracking

abbrev Timestamp := Int

/-- Input of `createTracking` (interface `TrackingData` in the source).
`user_id?` is an optional field, hence `Option Int`. -/
structure TrackingData where
  puesto_id : Int
  lote : String
  instancia : Int
  version : Int
  fecha_inicio : Timestamp
  user_id : Option Int := none
deriving Repr, DecidableEq

/-- One row of the `trackings` table (interface `TrackingRecord`).
`fecha_final = none` means the interval is open. -/
structure TrackingRecord where
  id : Nat
  puesto_id : Int
  lote : String
  instancia : Int
  version : Int
  fecha_inicio : Timestamp
  fecha_final : Option Timestamp
  user_id : Option Int
  closure_reason : Option String
  created_at : Timestamp
  updated_at : Timestamp
deriving Repr, DecidableEq

/-- A thrown JavaScript error.  `new Error(msg)` carries only a message;
errors raised by the Postgres client additionally carry the SQLSTATE `code`
and the violated `constraintName`, which is exactly what the service inspects
(`error.code === '23505'`). -/
structure JsError where
  message : String
  code : Option String := none
  constraintName : Option String := none
deriving Repr, DecidableEq

/-- The `trackings` table: its rows and the next value of the serial
primary-key sequence. -/
structure Store where
  rows : List TrackingRecord
  nextId : Nat
deriving Repr, DecidableEq

def emptyStore : Store := { rows := [], nextId := 1 }

/-- Well-formedness that Postgres guarantees for a table with a serial
primary key: all ids are below the sequence value and no two rows share an
id. -/
def Store.WF (s : Store) : Prop :=
  (∀ r ∈ s.rows, r.id < s.nextId) ∧ (s.rows.map (fun r => r.id)).Nodup

instance (s : Store) : Decidable s.WF :=
  inferInstanceAs (Decidable (_ ∧ _))

/-- Error raised by the store when an INSERT violates the partial unique
index `idx_unique_open_tracking` of migration 001 (SQLSTATE 23505). -/
def uniqueViolationError : JsError :=
  { message := "duplicate key value violates unique constraint",
    code := some "23505",
    constraintName := some "idx_unique_open_tracking" }

/-- Error raised by the store when an UPDATE violates the range check
`chk_valid_date_range` of migration 001 (SQLSTATE 23514). -/
def checkViolationError : JsError :=
  { message := "new row violates check constraint",
    code := some "23514",
    constraintName := some "chk_valid_date_range" }

/-- Message of the conflict error thrown when the target workstation already
has an open tracking for a different window; built exactly from the template
literal in the source, naming the occupying window identity and its
start time. -/
def conflictMessage (puestoId : Int) (o : TrackingRecord) : String :=
  "Cannot create tracking: Workstation " ++ toString puestoId ++
    " already has open tracking for window (lote: " ++ o.lote ++
    ", instancia: " ++ toString o.instancia ++
    ", version: " ++ toString o.version ++
    ") started at " ++ toString o.fecha_inicio

def conflictError (puestoId : Int) (o : TrackingRecord) : JsError :=
  { message := conflictMessage puestoId o }

/-- Message of the `new Error` the catch block substitutes for a 23505
constraint violation.  It is a plain `Error` value: no code, no constraint,
no distinct type. -/
def dbConstraintGenericMessage : String :=
  "Database constraint violation: A tracking already exists for this combination. " ++
    "This should have been caught by validation. Please check for concurrent operations."

def dbConstraintGenericError : JsError :=
  { message := dbConstraintGenericMessage }

/-- ORDER BY fecha_inicio DESC LIMIT 1 over a result list: the row with the
greatest `fecha_inicio` (ties resolved to the earliest stored row, one of the
orders Postgres may return). -/
def pickLatest : List TrackingRecord → Option TrackingRecord
  | [] => none
  | r :: rs =>
    match pickLatest rs with
    | none => some r
    | some b => if b.fecha_inicio > r.fecha_inicio then some b else some r

/-- Query of `findOpenTrackingInPuesto`: the most recent open tracking at a
workstation.  The SELECT column list is a projection; the embedding returns
the whole row, of which the source uses id, window identity and
fecha_inicio. -/
def findOpenTrackingInPuesto (s : Store) (puestoId : Int) : Option TrackingRecord :=
  pickLatest (s.rows.filter (fun r =>
    r.puesto_id == puestoId && r.fecha_final.isNone))

/-- The SELECT inside `closeTrackingInOtherPuesto`: the most recent open
tracking of the given window at any other workstation. -/
def findOpenInOtherPuesto (s : Store) (d : TrackingData) : Option TrackingRecord :=
  pickLatest (s.rows.filter (fun r =>
    r.lote == d.lote && r.instancia == d.instancia && r.version == d.version &&
      r.puesto_id != d.puesto_id && r.fecha_final.isNone))

/-- Effect of the UPDATE in `closeTracking` on one row: rows whose id
matches get `fecha_final`, `closure_reason`, and (via the trigger of
migration 001) `updated_at`; all other rows are untouched. -/
def closeRowIfId (trackingId : Nat) (fechaFinal : Timestamp) (reason : String)
    (now : Timestamp) (r : TrackingRecord) : TrackingRecord :=
  if r.id == trackingId then
    { r with fecha_final := some fechaFinal, closure_reason := some reason,
             updated_at := now }
  else r

/-- The UPDATE would violate `chk_valid_date_range` when it closes a row
before its own start time. -/
def closeCheckViolation (s : Store) (trackingId : Nat) (fechaFinal : Timestamp) : Bool :=
  s.rows.any (fun r => r.id == trackingId && decide (fechaFinal < r.fecha_inicio))

/-- `closeTracking(trackingId, fechaFinal, reason = MANUAL_CLOSE)`: an
unconditional UPDATE.  A nonexistent id matches no rows and the call still
succeeds; an id whose row would get `fecha_final < fecha_inicio` makes the
store raise the check-constraint error. -/
def closeTracking (s : Store) (trackingId : Nat) (fechaFinal : Timestamp)
    (now : Timestamp) (reason : String := "MANUAL_CLOSE") :
    Store × Except JsError Unit :=
  if closeCheckViolation s trackingId fechaFinal then
    (s, .error checkViolationError)
  else
    ({ s with rows := s.rows.map (closeRowIfId trackingId fechaFinal reason now) },
      .ok ())

/-- Step 1 of `createTracking`: close the open tracking of this window at
any other workstation, reason CHAIN_TRANSITION, end time = the incoming
`fecha_inicio`. -/
def closeTrackingInOtherPuesto (s : Store) (d : TrackingData) (now : Timestamp) :
    Store × Except JsError Unit :=
  match findOpenInOtherPuesto s d with
  | some prev => closeTracking s prev.id d.fecha_inicio now "CHAIN_TRANSITION"
  | none => (s, .ok ())

/-- The partial unique index `idx_unique_open_tracking` rejects the INSERT
exactly when an open row with the same (puesto_id, lote, instancia, version)
exists. -/
def uniqueOpenViolation (s : Store) (d : TrackingData) : Bool :=
  s.rows.any (fun r =>
    r.puesto_id == d.puesto_id && r.lote == d.lote && r.instancia == d.instancia &&
      r.version == d.version && r.fecha_final.isNone)

/-- JavaScript truthiness of `data.user_id || null`: the number 0 is falsy,
so a present user_id of 0 is stored as null. -/
def truthyUserId : Option Int → Option Int
  | some u => if u == 0 then none else some u
  | none => none

/-- The row built by the INSERT ... RETURNING * of step 3. -/
def newTrackingRecord (s : Store) (d : TrackingData) (now : Timestamp) : TrackingRecord :=
  { id := s.nextId, puesto_id := d.puesto_id, lote := d.lote,
    instancia := d.instancia, version := d.version,
    fecha_inicio := d.fecha_inicio, fecha_final := none,
    user_id := truthyUserId d.user_id, closure_reason := none,
    created_at := now, updated_at := now }

/-- Step 3 of `createTracking`: the INSERT, guarded by the unique index. -/
def insertTracking (s : Store) (d : TrackingData) (now : Timestamp) :
    Store × Except JsError TrackingRecord :=
  if uniqueOpenViolation s d then (s, .error uniqueViolationError)
  else
    ({ rows := s.rows ++ [newTrackingRecord s d now], nextId := s.nextId + 1 },
      .ok (newTrackingRecord s d now))

/-- The try-block of `createTracking`: step 1 (chain close elsewhere),
step 2 (open row at this workstation: rescan-close if same window, conflict
error if different), step 3 (insert).  Errors abort the remaining steps but
keep every mutation already performed, since the source issues independent
queries with no transaction. -/
def createTrackingBody (s : Store) (d : TrackingData) (now : Timestamp) :
    Store × Except JsError TrackingRecord :=
  match closeTrackingInOtherPuesto s d now with
  | (s1, .error e) => (s1, .error e)
  | (s1, .ok _) =>
    match findOpenTrackingInPuesto s1 d.puesto_id with
    | some o =>
      if o.lote == d.lote && o.instancia == d.instancia && o.version == d.version then
        match closeTracking s1 o.id d.fecha_inicio now "RESCANNED_SAME_WINDOW" with
        | (s2, .error e) => (s2, .error e)
        | (s2, .ok _) => insertTracking s2 d now
      else
        (s1, .error (conflictError d.puesto_id o))
    | none => insertTracking s1 d now

/-- The catch block: a storage error with code 23505 is replaced by a newly
constructed generic `Error` with a fixed message; every other error is
rethrown unchanged. -/
def rethrowAsGeneric (e : JsError) : JsError :=
  if e.code == some "23505" then dbConstraintGenericError else e

/-- `createTracking` = try-block wrapped in the catch block. -/
def createTracking (s : Store) (d : TrackingData) (now : Timestamp) :
    Store × Except JsError TrackingRecord :=
  match createTrackingBody s d now with
  | (s', .ok r) => (s', .ok r)
  | (s', .error e) => (s', .error (rethrowAsGeneric e))

/-- `getTracking`: point lookup by primary key. -/
def getTracking (s : Store) (trackingId : Nat) : Option TrackingRecord :=
  s.rows.find? (fun r => r.id == trackingId)

/-- COALESCE(fecha_final, CURRENT_TIMESTAMP). -/
def effectiveFinal (now : Timestamp) (r : TrackingRecord) : Timestamp :=
  r.fecha_final.getD now

/-- One output row of the `findOverlaps` query, mirroring its SELECT list. -/
structure OverlapRow where
  tracking1_id : Nat
  puesto_id : Int
  lote1 : String
  instancia1 : Int
  version1 : Int
  inicio1 : Timestamp
  final1 : Timestamp
  tracking2_id : Nat
  lote2 : String
  instancia2 : Int
  version2 : Int
  inicio2 : Timestamp
  final2 : Timestamp
  overlap_seconds : Int
deriving Repr, DecidableEq

def overlapPair (now : Timestamp) (r1 r2 : TrackingRecord) : OverlapRow :=
  { tracking1_id := r1.id, puesto_id := r1.puesto_id, lote1 := r1.lote,
    instancia1 := r1.instancia, version1 := r1.version,
    inicio1 := r1.fecha_inicio, final1 := effectiveFinal now r1,
    tracking2_id := r2.id, lote2 := r2.lote, instancia2 := r2.instancia,
    version2 := r2.version, inicio2 := r2.fecha_inicio,
    final2 := effectiveFinal now r2,
    overlap_seconds :=
      min (effectiveFinal now r1) (effectiveFinal now r2) -
        max r1.fecha_inicio r2.fecha_inicio }

/-- The join condition of the `findOverlaps` query: same puesto, id-ordered
pair, `t1.fecha_inicio < t2.fecha_final AND t1.fecha_final > t2.fecha_inicio`
over the coalesced finals. -/
def overlapCond (now : Timestamp) (r1 r2 : TrackingRecord) : Bool :=
  r1.puesto_id == r2.puesto_id && decide (r1.id < r2.id) &&
    decide (r1.fecha_inicio < effectiveFinal now r2) &&
    decide (effectiveFinal now r1 > r2.fecha_inicio)

/-- `findOverlaps`: the self-join of `tracking_periods` (result order is
presentational and not modeled). -/
def findOverlaps (s : Store) (now : Timestamp) : List OverlapRow :=
  s.rows.flatMap (fun r1 =>
    (s.rows.filter (fun r2 => overlapCond now r1 r2)).map (fun r2 => overlapPair now r1 r2))

/-- Membership of a point in the half-open range of an interval, the reading
the specification gives to `[start_time, end_time-or-now)`. -/
def inHalfOpenRange (now : Timestamp) (r : TrackingRecord) (x : Timestamp) : Prop :=
  r.fecha_inicio ≤ x ∧ x < effectiveFinal now r

/-- A store is clean for a window when it has no open interval for it. -/
def NoOpenForWindow (s : Store) (d : TrackingData) : Prop :=
  ∀ x ∈ s.rows, x.fecha_final = none →
    ¬(x.lote = d.lote ∧ x.instancia = d.instancia ∧ x.version = d.version)

instance (s : Store) (d : TrackingData) : Decidable (NoOpenForWindow s d) :=
  inferInstanceAs (Decidable (∀ x ∈ s.rows, x.fecha_final = none →
    ¬(x.lote = d.lote ∧ x.instancia = d.instancia ∧ x.version = d.version)))

/-! Concrete stores used to exercise the operations. -/

/-- An open row with window identity (lote, 1, 1), no user, audit times 0. -/
def openRow (i : Nat) (puesto : Int) (lote : String) (inicio : Timestamp) : TrackingRecord :=
  { id := i, puesto_id := puesto, lote := lote, instancia := 1, version := 1,
    fecha_inicio := inicio, fecha_final := none, user_id := none,
    closure_reason := none, created_at := 0, updated_at := 0 }

/-- Store for the conflict scenario: window W open at workstation 1, window B
open at workstation 2. -/
def c1Store : Store :=
  { rows := [openRow 1 1 "W" 0, openRow 2 2 "B" 0], nextId := 3 }

/-- Scan of window W at workstation 2 (occupied by B) at time 10. -/
def c1Data : TrackingData :=
  { puesto_id := 2, lote := "W", instancia := 1, version := 1, fecha_inicio := 10 }

/-- Store violating invariant I2: window W open at workstation 1 and at
workstation 2 simultaneously. -/
def c4Store : Store :=
  { rows := [openRow 1 1 "W" 0, openRow 2 2 "W" 0], nextId := 3 }

def c4Data : TrackingData :=
  { puesto_id := 2, lote := "W", instancia := 1, version := 1, fecha_inicio := 10 }

/-- Store violating invariant I1 at the storage level: two open rows for the
same (workstation, window) pair.  Step 2 of `createTracking` sees only the
most recent one, closes it, and the subsequent INSERT then hits the unique
index because of the older row: the sequential route to a 23505. -/
def c6Store : Store :=
  { rows := [openRow 1 1 "W" 0, openRow 2 1 "W" 5], nextId := 3 }

def c6Data : TrackingData :=
  { puesto_id := 1, lote := "W", instancia := 1, version := 1, fecha_inicio := 10 }

/-- A scan input that is malformed in every way the specification names:
empty lote, negative instancia and version, non-positive workstation id. -/
def c7Data : TrackingData :=
  { puesto_id := 0, lote := "", instancia := -1, version := -1, fecha_inicio := 0 }

/-- A store holding a single closed interval [0, 10] with reason
MANUAL_CLOSE. -/
def c9Store : Store :=
  { rows := [{ id := 1, puesto_id := 1, lote := "W", instancia := 1, version := 1,
               fecha_inicio := 0, fecha_final := some 10, user_id := none,
               closure_reason := some "MANUAL_CLOSE", created_at := 0,
               updated_at := 0 }],
    nextId := 2 }

/-- The concrete chain run of the specification: window (TEST001, 1, 1)
scanned at workstation 1 at 10:00, workstation 2 at 10:30, workstation 3 at
11:00 (epoch seconds 36000, 37800, 39600), starting from the empty store. -/
def chainStore : Store :=
  (createTracking
    (createTracking
      (createTracking emptyStore
        { puesto_id := 1, lote := "TEST001", instancia := 1, version := 1,
          fecha_inicio := 36000 } 36000).1
      { puesto_id := 2, lote := "TEST001", instancia := 1, version := 1,
        fecha_inicio := 37800 } 37800).1
    { puesto_id := 3, lote := "TEST001", instancia := 1, version := 1,
      fecha_inicio := 39600 } 39600).1

/-- Store reached by: scan (A,1,1) at workstation 1 at time 5; rescan it at
time 5 (closing row 1 as the degenerate interval [5,5]); manually close the
new open row at 20; scan (C,1,1) at workstation 1 at time 0.  Row 1 has the
empty half-open range [5,5) and row 3 the range [0, now). -/
def c5Store : Store :=
  (createTracking
    (closeTracking
      (createTracking
        (createTracking emptyStore
          { puesto_id := 1, lote := "A", instancia := 1, version := 1,
            fecha_inicio := 5 } 0).1
        { puesto_id := 1, lote := "A", instancia := 1, version := 1,
          fecha_inicio := 5 } 0).1
      2 20 0 "MANUAL_CLOSE").1
    { puesto_id := 1, lote := "C", instancia := 1, version := 1,
      fecha_inicio := 0 } 0).1

/-- Row 1 of `c5Store`: the degenerate closed interval [5,5]. -/
def c5DegRow : TrackingRecord :=
  { id := 1, puesto_id := 1, lote := "A", instancia := 1, version := 1,
    fecha_inicio := 5, fecha_final := some 5, user_id := none,
    closure_reason := some "RESCANNED_SAME_WINDOW", created_at := 0,
    updated_at := 0 }

/-- Row 3 of `c5Store`: the open interval started at 0. -/
def c5OpenRow : TrackingRecord :=
  { id := 3, puesto_id := 1, lote := "C", instancia := 1, version := 1,
    fecha_inicio := 0, fecha_final := none, user_id := none,
    closure_reason := none, created_at := 0, updated_at := 0 }

/-!  General lemmas about the store operations. -/

theorem pickLatest_mem : ∀ {l : List TrackingRecord} {r : TrackingRecord},
    pickLatest l = some r → r ∈ l := by
  intro l
  induction l with
  | nil => intro r h; simp [pickLatest] at h
  | cons a as ih =>
    intro r h
    cases hp : pickLatest as with
    | none =>
      simp only [pickLatest, hp] at h
      cases h; exact List.mem_cons_self _ _
    | some b =>
      simp only [pickLatest, hp] at h
      by_cases hgt : b.fecha_inicio > a.fecha_inicio
      · rw [if_pos hgt] at h; cases h; exact List.mem_cons_of_mem _ (ih hp)
      · rw [if_neg hgt] at h; cases h; exact List.mem_cons_self _ _

theorem pickLatest_eq_none_iff {l : List TrackingRecord} :
    pickLatest l = none ↔ l = [] := by
  cases l with
  | nil => simp [pickLatest]
  | cons a as =>
    constructor
    · intro h
      exfalso
      cases hp : pickLatest as with
      | none => simp [pickLatest, hp] at h
      | some b =>
        simp only [pickLatest, hp] at h
        split at h <;> exact Option.noConfusion h
    · intro h; exact List.noConfusion h

theorem closeRowIfId_id (j : Nat) (t : Timestamp) (rsn : String) (now : Timestamp)
    (r : TrackingRecord) : (closeRowIfId j t rsn now r).id = r.id := by
  unfold closeRowIfId; split <;> rfl

theorem closeRowIfId_of_ne {j : Nat} {r : TrackingRecord} (h : r.id ≠ j)
    (t : Timestamp) (rsn : String) (now : Timestamp) :
    closeRowIfId j t rsn now r = r := by
  unfold closeRowIfId
  rw [if_neg]
  simpa using h

theorem closeRowIfId_self {j : Nat} {r : TrackingRecord} (h : r.id = j)
    (t : Timestamp) (rsn : String) (now : Timestamp) :
    closeRowIfId j t rsn now r =
      { r with fecha_final := some t, closure_reason := some rsn, updated_at := now } := by
  unfold closeRowIfId
  rw [if_pos]
  simpa using h

theorem map_closeRowIfId_of_ne {l : List TrackingRecord} {j : Nat}
    (h : ∀ r ∈ l, r.id ≠ j) (t : Timestamp) (rsn : String) (now : Timestamp) :
    l.map (closeRowIfId j t rsn now) = l := by
  rw [show l = l.map id by simp]
  rw [List.map_map]
  exact List.map_congr_left (fun r hr => by
    simp only [Function.comp, id]
    exact closeRowIfId_of_ne (by simpa using h r (by simpa using hr)) t rsn now)

theorem find?_map_closeRowIfId (l : List TrackingRecord) (j : Nat) (t : Timestamp)
    (rsn : String) (now : Timestamp) (i : Nat) :
    (l.map (closeRowIfId j t rsn now)).find? (fun r => r.id == i) =
      (l.find? (fun r => r.id == i)).map (closeRowIfId j t rsn now) := by
  rw [List.find?_map]
  have hpred : ((fun r => r.id == i) ∘ closeRowIfId j t rsn now) =
      (fun r : TrackingRecord => r.id == i) := by
    funext r
    simp [Function.comp, closeRowIfId_id]
  rw [hpred]

theorem getTracking_id {s : Store} {i : Nat} {r : TrackingRecord}
    (h : getTracking s i = some r) : r.id = i := by
  have := List.find?_some h
  simpa using this

theorem getTracking_mem {s : Store} {i : Nat} {r : TrackingRecord}
    (h : getTracking s i = some r) : r ∈ s.rows :=
  List.mem_of_find?_eq_some h

theorem two_mem_le_length {α : Type} {l : List α} {a b : α}
    (ha : a ∈ l) (hb : b ∈ l) (hne : a ≠ b) : 2 ≤ l.length := by
  obtain ⟨l1, l2, rfl⟩ := List.append_of_mem ha
  have hb2 : b ∈ l1 ++ l2 := by
    rcases List.mem_append.1 hb with h | h
    · exact List.mem_append_left _ h
    · rcases List.mem_cons.1 h with h | h
      · exact absurd h.symm hne
      · exact List.mem_append_right _ h
  have : 1 ≤ (l1 ++ l2).length := List.length_pos.2 (List.ne_nil_of_mem hb2)
  simp only [List.length_append, List.length_cons] at *
  omega

theorem eq_of_mem_nodup_ids {l : List TrackingRecord} {a b : TrackingRecord}
    (hn : (l.map (fun r => r.id)).Nodup) (ha : a ∈ l) (hb : b ∈ l)
    (h : a.id = b.id) : a = b :=
  List.inj_on_of_nodup_map hn ha hb h

theorem find?_eq_some_of_nodup {l : List TrackingRecord} {r : TrackingRecord}
    (hn : (l.map (fun x => x.id)).Nodup) (hr : r ∈ l) :
    l.find? (fun x => x.id == r.id) = some r := by
  induction l with
  | nil => cases hr
  | cons a as ih =>
    by_cases h : a.id = r.id
    · have : a = r := by
        rcases List.mem_cons.1 hr with rfl | hmem
        · rfl
        · exact eq_of_mem_nodup_ids hn (List.mem_cons_self _ _)
            (List.mem_cons_of_mem _ hmem) h
      rw [List.find?_cons_of_pos _ (by simpa using h), this]
    · have hr2 : r ∈ as := by
        rcases List.mem_cons.1 hr with rfl | hmem
        · exact absurd rfl h
        · exact hmem
      rw [List.find?_cons_of_neg _ (by simpa using h)]
      exact ih (by simpa using (List.nodup_cons.1 (by simpa using hn)).2) hr2

theorem filter_other_nil {s : Store} {d : TrackingData} (hclean : NoOpenForWindow s d) :
    s.rows.filter (fun r =>
      r.lote == d.lote && r.instancia == d.instancia && r.version == d.version &&
        r.puesto_id != d.puesto_id && r.fecha_final.isNone) = [] := by
  rw [List.filter_eq_nil_iff]
  intro r hr h
  simp only [Bool.and_eq_true, beq_iff_eq, bne_iff_ne, Option.isNone_iff_eq_none] at h
  exact hclean r hr h.2 ⟨h.1.1.1.1, h.1.1.1.2, h.1.1.2⟩

theorem closeTrackingInOtherPuesto_of_clean {s : Store} {d : TrackingData}
    (now : Timestamp) (hclean : NoOpenForWindow s d) :
    closeTrackingInOtherPuesto s d now = (s, .ok ()) := by
  unfold closeTrackingInOtherPuesto findOpenInOtherPuesto
  rw [filter_other_nil hclean]
  rfl

theorem uniqueOpenViolation_false_of_clean {s : Store} {d : TrackingData}
    (hclean : NoOpenForWindow s d) : uniqueOpenViolation s d = false := by
  rw [uniqueOpenViolation, List.any_eq_false]
  intro r hr h
  simp only [Bool.and_eq_true, beq_iff_eq, Option.isNone_iff_eq_none] at h
  exact hclean r hr h.2 ⟨h.1.1.1.2, h.1.1.2, h.1.2⟩

/-- On a store with no open interval for the incoming window,
`createTracking` can only succeed through the plain-insert path: no open row
is found at the target workstation and the returned record is the freshly
inserted open row. -/
theorem createTracking_ok_of_clean {s : Store} {d : TrackingData} {now : Timestamp}
    {s' : Store} {r : TrackingRecord} (hclean : NoOpenForWindow s d)
    (h : createTracking s d now = (s', .ok r)) :
    s' = { rows := s.rows ++ [newTrackingRecord s d now], nextId := s.nextId + 1 } ∧
    r = newTrackingRecord s d now ∧
    findOpenTrackingInPuesto s d.puesto_id = none := by
  have hstep1 := closeTrackingInOtherPuesto_of_clean (d := d) now hclean
  have hviol := uniqueOpenViolation_false_of_clean hclean
  cases hfo : findOpenTrackingInPuesto s d.puesto_id with
  | some o =>
    exfalso
    have ho := pickLatest_mem hfo
    rw [List.mem_filter] at ho
    have ho_mem : o ∈ s.rows := ho.1
    have ho_props := ho.2
    simp only [Bool.and_eq_true, beq_iff_eq, Option.isNone_iff_eq_none] at ho_props
    by_cases hsw : (o.lote == d.lote && o.instancia == d.instancia &&
        o.version == d.version) = true
    · simp only [Bool.and_eq_true, beq_iff_eq] at hsw
      exact hclean o ho_mem ho_props.2 ⟨hsw.1.1, hsw.1.2, hsw.2⟩
    · have hcomp : createTracking s d now =
          (s, .error (conflictError d.puesto_id o)) := by
        unfold createTracking createTrackingBody
        simp only [hstep1, hfo]
        rw [if_neg (by simpa using hsw)]
        simp [rethrowAsGeneric, conflictError]
      rw [h] at hcomp
      simp at hcomp
  | none =>
    have hcomp : createTracking s d now =
        ({ rows := s.rows ++ [newTrackingRecord s d now], nextId := s.nextId + 1 },
          .ok (newTrackingRecord s d now)) := by
      unfold createTracking createTrackingBody
      simp only [hstep1, hfo]
      unfold insertTracking
      rw [if_neg (by simp [hviol])]
    rw [h] at hcomp
    simp only [Prod.mk.injEq, Except.ok.injEq] at hcomp
    exact ⟨hcomp.1, hcomp.2, rfl⟩

/-!  Counterexamples refuting claims as stated. -/


/-- C1 counterexample: the claim says a conflicting scan fails with
`ConflictError` and no mutation occurs, every interval — including any open
interval of the incoming window at another workstation — staying exactly as
it was.  On `c1Store`, scanning window W at workstation 2 (occupied by B)
does fail with the conflict error, but step 1 has already closed the open
interval of W at workstation 1 with reason CHAIN_TRANSITION, and that
mutation persists: the store is not as it was before the call. -/
theorem c1_counterexample :
    (createTracking c1Store c1Data 0).2 = .error (conflictError 2 (openRow 2 2 "B" 0)) ∧
    getTracking c1Store 1 = some (openRow 1 1 "W" 0) ∧
    (openRow 1 1 "W" 0).fecha_final = none ∧
    getTracking (createTracking c1Store c1Data 0).1 1 =
      some { (openRow 1 1 "W" 0) with
             fecha_final := some 10,
             closure_reason := some "CHAIN_TRANSITION" } ∧
    (createTracking c1Store c1Data 0).1 ≠ c1Store := by
  refine ⟨rfl, rfl, rfl, rfl, ?_⟩
  decide

/-- C4 counterexample: the claim says that for every store state a single
`createTracking` call closes at most one prior interval, never two.  On
`c4Store` (window W open at two workstations, a state the claim's universal
quantification admits), one call closes row 1 with CHAIN_TRANSITION and row
2 with RESCANNED_SAME_WINDOW: two prior intervals closed. -/
theorem c4_counterexample :
    (openRow 1 1 "W" 0).fecha_final = none ∧
    (openRow 2 2 "W" 0).fecha_final = none ∧
    getTracking (createTracking c4Store c4Data 0).1 1 =
      some { (openRow 1 1 "W" 0) with
             fecha_final := some 10,
             closure_reason := some "CHAIN_TRANSITION" } ∧
    getTracking (createTracking c4Store c4Data 0).1 2 =
      some { (openRow 2 2 "W" 0) with
             fecha_final := some 10,
             closure_reason := some "RESCANNED_SAME_WINDOW" } := by
  exact ⟨rfl, rfl, rfl, rfl⟩

/-- C5 counterexample: the claim says `findOverlaps` returns exactly the
pairs whose half-open ranges intersect.  In `c5Store` the degenerate row 1
has the empty range [5, 5) and row 3 the range [0, 10) at `now = 10`; the
two ranges are disjoint (`min final ≤ max inicio`, reported overlap
duration 0), yet the query returns their pair, because its strict join
conditions 5 < 10 and 5 > 0 hold. -/
theorem c5_counterexample :
    overlapPair 10 c5DegRow c5OpenRow ∈ findOverlaps c5Store 10 ∧
    min (effectiveFinal 10 c5DegRow) (effectiveFinal 10 c5OpenRow) ≤
      max c5DegRow.fecha_inicio c5OpenRow.fecha_inicio ∧
    (overlapPair 10 c5DegRow c5OpenRow).overlap_seconds = 0 := by
  refine ⟨?_, ?_, rfl⟩ <;> decide

/-- C6 counterexample: the claim says a unique-constraint violation on the
final insert surfaces as a typed, retryable `ConcurrencyConflictError`
distinguished by a kind/code, rather than a generic error.  On `c6Store` the
insert does hit the 23505 unique violation, but the call rethrows a plain
generic `Error` with a fixed message and no code or constraint attached. -/
theorem c6_counterexample :
    (createTracking c6Store c6Data 0).2 = .error dbConstraintGenericError ∧
    dbConstraintGenericError.code = none ∧
    dbConstraintGenericError.constraintName = none ∧
    dbConstraintGenericError.message = dbConstraintGenericMessage := by
  exact ⟨rfl, rfl, rfl, rfl⟩

/-- C7 counterexample: the claim says a malformed scan input (empty lote,
negative instancia and version, non-positive workstation id) fails with
`ValidationError` and performs no store mutation.  The code performs no
validation: on the empty store the call succeeds and inserts the malformed
values verbatim. -/
theorem c7_counterexample :
    (createTracking emptyStore c7Data 0).2 =
      .ok (newTrackingRecord emptyStore c7Data 0) ∧
    (createTracking emptyStore c7Data 0).1.rows =
      [newTrackingRecord emptyStore c7Data 0] ∧
    (newTrackingRecord emptyStore c7Data 0).lote = "" := by
  exact ⟨rfl, rfl, rfl⟩

/-- C8 counterexample: the claim says `closeTracking` fails with
`NotFoundError` when the interval id does not exist.  The UPDATE simply
matches no rows: on the empty store the call returns success and changes
nothing. -/
theorem c8_counterexample :
    closeTracking emptyStore 1 20 0 "MANUAL_CLOSE" = (emptyStore, .ok ()) := by
  rfl

/-- C9 counterexample: the claim says a closed interval is immutable under
every subsequent operation, including a further `closeTracking` on the same
id.  Row 1 of `c9Store` is closed with end time 10, and a second
`closeTracking` call overwrites its end time to 20 and its closure reason
to AUTO_CLOSED_ORPHANED. -/
theorem c9_counterexample :
    (getTracking c9Store 1).map (fun r => r.fecha_final) = some (some 10) ∧
    (closeTracking c9Store 1 20 7 "AUTO_CLOSED_ORPHANED").2 = .ok () ∧
    (getTracking (closeTracking c9Store 1 20 7 "AUTO_CLOSED_ORPHANED").1 1).map
        (fun r => r.fecha_final) = some (some 20) ∧
    (getTracking (closeTracking c9Store 1 20 7 "AUTO_CLOSED_ORPHANED").1 1).map
        (fun r => r.closure_reason) = some (some "AUTO_CLOSED_ORPHANED") := by
  exact ⟨rfl, rfl, rfl, rfl⟩


/-!  Claim theorems: scenario properties. -/

/-- C2: for every pair of calls `recordScan(W, P1, t0)` then
`recordScan(W, P2, t1)` with `P1 ≠ P2` and `t1 > t0`, both succeeding from a
well-formed store with no open interval for window W, the interval opened at
P1 ends closed with `end_time = t1` and `closure_reason = CHAIN_TRANSITION`,
and the newly created interval at P2 is open (`end_time = null`). -/
theorem c2_chain_property
    (s0 : Store) (l : String) (a v P1 P2 : Int) (t0 t1 : Timestamp)
    (u1 u2 : Option Int) (now1 now2 : Timestamp)
    (s1 s2 : Store) (r1 r2 : TrackingRecord)
    (hwf : s0.WF)
    (hclean : NoOpenForWindow s0 ⟨P1, l, a, v, t0, u1⟩)
    (hne : P1 ≠ P2) (ht : t0 < t1)
    (h1 : createTracking s0 ⟨P1, l, a, v, t0, u1⟩ now1 = (s1, .ok r1))
    (h2 : createTracking s1 ⟨P2, l, a, v, t1, u2⟩ now2 = (s2, .ok r2)) :
    getTracking s2 r1.id =
      some { r1 with
             fecha_final := some t1,
             closure_reason := some "CHAIN_TRANSITION",
             updated_at := now2 } ∧
    r1.puesto_id = P1 ∧ r1.fecha_inicio = t0 ∧ r1.fecha_final = none ∧
    r2.fecha_final = none ∧ r2.puesto_id = P2 ∧ r2.fecha_inicio = t1 := by
  obtain ⟨hs1, hr1, _⟩ := createTracking_ok_of_clean hclean h1
  subst hs1
  subst hr1
  set N1 := newTrackingRecord s0 ⟨P1, l, a, v, t0, u1⟩ now1 with hN1
  have hids : ∀ r ∈ s0.rows, r.id ≠ s0.nextId := fun r hr => Nat.ne_of_lt (hwf.1 r hr)
  -- step 1 of the second call finds the open interval N1 at P1
  have hfilter_other : (s0.rows ++ [N1]).filter (fun r =>
      r.lote == (⟨P2, l, a, v, t1, u2⟩ : TrackingData).lote &&
      r.instancia == (⟨P2, l, a, v, t1, u2⟩ : TrackingData).instancia &&
      r.version == (⟨P2, l, a, v, t1, u2⟩ : TrackingData).version &&
      r.puesto_id != (⟨P2, l, a, v, t1, u2⟩ : TrackingData).puesto_id &&
      r.fecha_final.isNone) = [N1] := by
    rw [List.filter_append]
    rw [filter_other_nil (s := s0) (d := ⟨P2, l, a, v, t1, u2⟩)
      (fun x hx hopen hw => hclean x hx hopen hw)]
    simp [hN1, newTrackingRecord, hne]
  have e1 : findOpenInOtherPuesto
      { rows := s0.rows ++ [N1], nextId := s0.nextId + 1 } ⟨P2, l, a, v, t1, u2⟩ =
      some N1 := by
    unfold findOpenInOtherPuesto
    rw [hfilter_other]
    rfl
  -- the chain close of N1 succeeds and closes exactly N1
  have hcv : closeCheckViolation
      { rows := s0.rows ++ [N1], nextId := s0.nextId + 1 } N1.id t1 = false := by
    rw [closeCheckViolation, List.any_eq_false]
    intro r hr
    rcases List.mem_append.1 hr with h | h
    · simp only [Bool.and_eq_true, beq_iff_eq, decide_eq_true_eq, not_and]
      intro hid
      exact absurd hid (hids r h)
    · obtain rfl := List.mem_singleton.1 h
      simp only [Bool.and_eq_true, beq_iff_eq, decide_eq_true_eq, not_and]
      intro _
      show ¬(t1 < N1.fecha_inicio)
      rw [show N1.fecha_inicio = t0 from rfl]
      exact not_lt.2 (le_of_lt ht)
  have e2 : closeTracking
      { rows := s0.rows ++ [N1], nextId := s0.nextId + 1 } N1.id t1 now2
        "CHAIN_TRANSITION" =
      ({ rows := s0.rows ++
          [{ N1 with
             fecha_final := some t1,
             closure_reason := some "CHAIN_TRANSITION",
             updated_at := now2 }],
         nextId := s0.nextId + 1 }, .ok ()) := by
    unfold closeTracking
    rw [if_neg (by simp [hcv])]
    have hmap : (s0.rows ++ [N1]).map (closeRowIfId N1.id t1 "CHAIN_TRANSITION" now2) =
        s0.rows ++
          [{ N1 with
             fecha_final := some t1,
             closure_reason := some "CHAIN_TRANSITION",
             updated_at := now2 }] := by
      rw [List.map_append, map_closeRowIfId_of_ne (j := N1.id)
        (fun r hr => by rw [show N1.id = s0.nextId from rfl]; exact hids r hr)]
      simp [closeRowIfId_self rfl]
    rw [hmap]
  set C1r : TrackingRecord :=
    { N1 with
      fecha_final := some t1,
      closure_reason := some "CHAIN_TRANSITION",
      updated_at := now2 } with hC1r
  have hfilterP2 : (s0.rows ++ [C1r]).filter
      (fun r => r.puesto_id == P2 && r.fecha_final.isNone) =
      s0.rows.filter (fun r => r.puesto_id == P2 && r.fecha_final.isNone) := by
    rw [List.filter_append]
    have : [C1r].filter (fun r => r.puesto_id == P2 && r.fecha_final.isNone) = [] := by
      simp [hC1r]
    rw [this, List.append_nil]
  cases hfo2 : findOpenTrackingInPuesto
      { rows := s0.rows ++ [C1r], nextId := s0.nextId + 1 } P2 with
  | some o =>
    exfalso
    have hpl : pickLatest (s0.rows.filter
        (fun r => r.puesto_id == P2 && r.fecha_final.isNone)) = some o := by
      unfold findOpenTrackingInPuesto at hfo2
      rw [hfilterP2] at hfo2
      exact hfo2
    have hof := pickLatest_mem hpl
    rw [List.mem_filter] at hof
    have ho_mem : o ∈ s0.rows := hof.1
    have ho_open : o.fecha_final = none := by
      have := hof.2
      simp only [Bool.and_eq_true, Option.isNone_iff_eq_none] at this
      exact this.2
    by_cases hsw : (o.lote == l && o.instancia == a && o.version == v) = true
    · simp only [Bool.and_eq_true, beq_iff_eq] at hsw
      exact hclean o ho_mem ho_open ⟨hsw.1.1, hsw.1.2, hsw.2⟩
    · rw [Bool.not_eq_true] at hsw
      unfold createTracking createTrackingBody closeTrackingInOtherPuesto at h2
      simp only [e1, e2, hfo2, hsw, Bool.false_eq_true, if_false] at h2
      simp at h2
  | none =>
    have hviol2 : uniqueOpenViolation
        { rows := s0.rows ++ [C1r], nextId := s0.nextId + 1 }
        ⟨P2, l, a, v, t1, u2⟩ = false := by
      rw [uniqueOpenViolation, List.any_eq_false]
      intro r hr
      rcases List.mem_append.1 hr with h | h
      · intro hcontra
        simp only [Bool.and_eq_true, beq_iff_eq, Option.isNone_iff_eq_none] at hcontra
        exact hclean r h hcontra.2 ⟨hcontra.1.1.1.2, hcontra.1.1.2, hcontra.1.2⟩
      · obtain rfl := List.mem_singleton.1 h
        simp [hC1r]
    unfold createTracking createTrackingBody closeTrackingInOtherPuesto at h2
    simp only [e1, e2, hfo2] at h2
    unfold insertTracking at h2
    rw [if_neg (by simp [hviol2])] at h2
    simp only [Prod.mk.injEq, Except.ok.injEq] at h2
    obtain ⟨hs2, hr2⟩ := h2
    subst hs2
    subst hr2
    refine ⟨?_, rfl, rfl, rfl, rfl, rfl, rfl⟩
    show getTracking _ N1.id = some C1r
    unfold getTracking
    have hfind0 : s0.rows.find? (fun r => r.id == N1.id) = none := by
      rw [List.find?_eq_none]
      intro r hr
      simp only [beq_iff_eq]
      rw [show N1.id = s0.nextId from rfl]
      exact hids r hr
    have hfindC : [C1r].find? (fun r => r.id == N1.id) = some C1r := by
      rw [List.find?_cons_of_pos]
      simp [hC1r]
    show ((s0.rows ++ [C1r]) ++
        [newTrackingRecord { rows := s0.rows ++ [C1r], nextId := s0.nextId + 1 }
          ⟨P2, l, a, v, t1, u2⟩ now2]).find? (fun r => r.id == N1.id) = some C1r
    rw [List.find?_append, List.find?_append, hfind0, hfindC]
    rfl


/-- C3: for every pair of calls `recordScan(W, P1, t0)` then
`recordScan(W, P1, t1)` with `t1 > t0` (a re-scan of the same window at the
same workstation), both succeeding from a well-formed store with no open
interval for window W, the first interval is closed with
`closure_reason = RESCANNED_SAME_WINDOW` and `end_time = t1`, and the second
call returns a new open interval at P1. -/
theorem c3_rescan_property
    (s0 : Store) (l : String) (a v P1 : Int) (t0 t1 : Timestamp)
    (u1 u2 : Option Int) (now1 now2 : Timestamp)
    (s1 s2 : Store) (r1 r2 : TrackingRecord)
    (hwf : s0.WF)
    (hclean : NoOpenForWindow s0 ⟨P1, l, a, v, t0, u1⟩)
    (ht : t0 < t1)
    (h1 : createTracking s0 ⟨P1, l, a, v, t0, u1⟩ now1 = (s1, .ok r1))
    (h2 : createTracking s1 ⟨P1, l, a, v, t1, u2⟩ now2 = (s2, .ok r2)) :
    getTracking s2 r1.id =
      some { r1 with
             fecha_final := some t1,
             closure_reason := some "RESCANNED_SAME_WINDOW",
             updated_at := now2 } ∧
    r1.puesto_id = P1 ∧ r1.fecha_inicio = t0 ∧ r1.fecha_final = none ∧
    r2.fecha_final = none ∧ r2.puesto_id = P1 ∧ r2.fecha_inicio = t1 := by
  obtain ⟨hs1, hr1, hfo0⟩ := createTracking_ok_of_clean hclean h1
  subst hs1
  subst hr1
  set N1 := newTrackingRecord s0 ⟨P1, l, a, v, t0, u1⟩ now1 with hN1
  have hids : ∀ r ∈ s0.rows, r.id ≠ s0.nextId := fun r hr => Nat.ne_of_lt (hwf.1 r hr)
  have hq0 : s0.rows.filter (fun r => r.puesto_id == P1 && r.fecha_final.isNone) = [] := by
    unfold findOpenTrackingInPuesto at hfo0
    exact pickLatest_eq_none_iff.1 hfo0
  -- step 1 of the second call finds nothing at another workstation
  have e1 : findOpenInOtherPuesto
      { rows := s0.rows ++ [N1], nextId := s0.nextId + 1 } ⟨P1, l, a, v, t1, u2⟩ =
      none := by
    unfold findOpenInOtherPuesto
    rw [pickLatest_eq_none_iff, List.filter_append]
    rw [filter_other_nil (s := s0) (d := ⟨P1, l, a, v, t1, u2⟩)
      (fun x hx hopen hw => hclean x hx hopen hw)]
    simp [hN1, newTrackingRecord]
  -- step 2 finds N1 open at P1
  have e3 : findOpenTrackingInPuesto
      { rows := s0.rows ++ [N1], nextId := s0.nextId + 1 } P1 = some N1 := by
    unfold findOpenTrackingInPuesto
    rw [List.filter_append, hq0]
    have hone : [N1].filter (fun r => r.puesto_id == P1 && r.fecha_final.isNone) =
        [N1] := by
      simp [hN1, newTrackingRecord]
    rw [hone]
    rfl
  have hcv : closeCheckViolation
      { rows := s0.rows ++ [N1], nextId := s0.nextId + 1 } N1.id t1 = false := by
    rw [closeCheckViolation, List.any_eq_false]
    intro r hr
    rcases List.mem_append.1 hr with h | h
    · simp only [Bool.and_eq_true, beq_iff_eq, decide_eq_true_eq, not_and]
      intro hid
      exact absurd hid (hids r h)
    · obtain rfl := List.mem_singleton.1 h
      simp only [Bool.and_eq_true, beq_iff_eq, decide_eq_true_eq, not_and]
      intro _
      show ¬(t1 < N1.fecha_inicio)
      rw [show N1.fecha_inicio = t0 from rfl]
      exact not_lt.2 (le_of_lt ht)
  have e2 : closeTracking
      { rows := s0.rows ++ [N1], nextId := s0.nextId + 1 } N1.id t1 now2
        "RESCANNED_SAME_WINDOW" =
      ({ rows := s0.rows ++
          [{ N1 with
             fecha_final := some t1,
             closure_reason := some "RESCANNED_SAME_WINDOW",
             updated_at := now2 }],
         nextId := s0.nextId + 1 }, .ok ()) := by
    unfold closeTracking
    rw [if_neg (by simp [hcv])]
    have hmap : (s0.rows ++ [N1]).map
        (closeRowIfId N1.id t1 "RESCANNED_SAME_WINDOW" now2) =
        s0.rows ++
          [{ N1 with
             fecha_final := some t1,
             closure_reason := some "RESCANNED_SAME_WINDOW",
             updated_at := now2 }] := by
      rw [List.map_append, map_closeRowIfId_of_ne (j := N1.id)
        (fun r hr => by rw [show N1.id = s0.nextId from rfl]; exact hids r hr)]
      simp [closeRowIfId_self rfl]
    rw [hmap]
  set C1r : TrackingRecord :=
    { N1 with
      fecha_final := some t1,
      closure_reason := some "RESCANNED_SAME_WINDOW",
      updated_at := now2 } with hC1r
  have hsw : (N1.lote == l && N1.instancia == a && N1.version == v) = true := by
    simp [hN1, newTrackingRecord]
  have hviol2 : uniqueOpenViolation
      { rows := s0.rows ++ [C1r], nextId := s0.nextId + 1 }
      ⟨P1, l, a, v, t1, u2⟩ = false := by
    rw [uniqueOpenViolation, List.any_eq_false]
    intro r hr
    rcases List.mem_append.1 hr with h | h
    · intro hcontra
      simp only [Bool.and_eq_true, beq_iff_eq, Option.isNone_iff_eq_none] at hcontra
      exact hclean r h hcontra.2 ⟨hcontra.1.1.1.2, hcontra.1.1.2, hcontra.1.2⟩
    · obtain rfl := List.mem_singleton.1 h
      simp [hC1r]
  unfold createTracking createTrackingBody closeTrackingInOtherPuesto at h2
  simp only [e1, e3, hsw, if_true, e2] at h2
  unfold insertTracking at h2
  rw [if_neg (by simp [hviol2])] at h2
  simp only [Prod.mk.injEq, Except.ok.injEq] at h2
  obtain ⟨hs2, hr2⟩ := h2
  subst hs2
  subst hr2
  refine ⟨?_, rfl, rfl, rfl, rfl, rfl, rfl⟩
  show getTracking _ N1.id = some C1r
  unfold getTracking
  have hfind0 : s0.rows.find? (fun r => r.id == N1.id) = none := by
    rw [List.find?_eq_none]
    intro r hr
    simp only [beq_iff_eq]
    rw [show N1.id = s0.nextId from rfl]
    exact hids r hr
  have hfindC : [C1r].find? (fun r => r.id == N1.id) = some C1r := by
    rw [List.find?_cons_of_pos]
    simp [hC1r]
  show ((s0.rows ++ [C1r]) ++
      [newTrackingRecord { rows := s0.rows ++ [C1r], nextId := s0.nextId + 1 }
        ⟨P1, l, a, v, t1, u2⟩ now2]).find? (fun r => r.id == N1.id) = some C1r
  rw [List.find?_append, List.find?_append, hfind0, hfindC]
  rfl


/-- C2 witness: the chain property theorem applied to the concrete run
scan(TEST001 at workstation 1, t=0) then scan(TEST001 at workstation 2,
t=30) from the empty store. -/
theorem c2_chain_property_witness :
    (emptyStore.WF ∧
     NoOpenForWindow emptyStore ⟨1, "TEST001", 1, 1, 0, none⟩ ∧
     (1 : Int) ≠ 2 ∧ (0 : Timestamp) < 30 ∧
     createTracking emptyStore ⟨1, "TEST001", 1, 1, 0, none⟩ 0 =
       ({ rows := [openRow 1 1 "TEST001" 0], nextId := 2 },
         .ok (openRow 1 1 "TEST001" 0)) ∧
     createTracking { rows := [openRow 1 1 "TEST001" 0], nextId := 2 }
       ⟨2, "TEST001", 1, 1, 30, none⟩ 0 =
       ({ rows := [{ (openRow 1 1 "TEST001" 0) with
                     fecha_final := some 30,
                     closure_reason := some "CHAIN_TRANSITION",
                     updated_at := 0 },
                   openRow 2 2 "TEST001" 30], nextId := 3 },
         .ok (openRow 2 2 "TEST001" 30))) ∧
    (getTracking
        { rows := [{ (openRow 1 1 "TEST001" 0) with
                     fecha_final := some 30,
                     closure_reason := some "CHAIN_TRANSITION",
                     updated_at := 0 },
                   openRow 2 2 "TEST001" 30], nextId := 3 }
        (openRow 1 1 "TEST001" 0).id =
      some { (openRow 1 1 "TEST001" 0) with
             fecha_final := some 30,
             closure_reason := some "CHAIN_TRANSITION",
             updated_at := 0 } ∧
     (openRow 1 1 "TEST001" 0).puesto_id = 1 ∧
     (openRow 1 1 "TEST001" 0).fecha_inicio = 0 ∧
     (openRow 1 1 "TEST001" 0).fecha_final = none ∧
     (openRow 2 2 "TEST001" 30).fecha_final = none ∧
     (openRow 2 2 "TEST001" 30).puesto_id = 2 ∧
     (openRow 2 2 "TEST001" 30).fecha_inicio = 30) :=
  ⟨⟨by decide, by decide, by decide, by decide, rfl, rfl⟩,
    c2_chain_property emptyStore "TEST001" 1 1 1 2 0 30 none none 0 0
      _ _ _ _ (by decide) (by decide) (by decide) (by decide) rfl rfl⟩

/-- C3 witness: the rescan property theorem applied to the concrete run
scan(TEST001 at workstation 1, t=0) then scan(TEST001 at workstation 1,
t=30) from the empty store. -/
theorem c3_rescan_property_witness :
    (emptyStore.WF ∧
     NoOpenForWindow emptyStore ⟨1, "TEST001", 1, 1, 0, none⟩ ∧
     (0 : Timestamp) < 30 ∧
     createTracking emptyStore ⟨1, "TEST001", 1, 1, 0, none⟩ 0 =
       ({ rows := [openRow 1 1 "TEST001" 0], nextId := 2 },
         .ok (openRow 1 1 "TEST001" 0)) ∧
     createTracking { rows := [openRow 1 1 "TEST001" 0], nextId := 2 }
       ⟨1, "TEST001", 1, 1, 30, none⟩ 0 =
       ({ rows := [{ (openRow 1 1 "TEST001" 0) with
                     fecha_final := some 30,
                     closure_reason := some "RESCANNED_SAME_WINDOW",
                     updated_at := 0 },
                   openRow 2 1 "TEST001" 30], nextId := 3 },
         .ok (openRow 2 1 "TEST001" 30))) ∧
    (getTracking
        { rows := [{ (openRow 1 1 "TEST001" 0) with
                     fecha_final := some 30,
                     closure_reason := some "RESCANNED_SAME_WINDOW",
                     updated_at := 0 },
                   openRow 2 1 "TEST001" 30], nextId := 3 }
        (openRow 1 1 "TEST001" 0).id =
      some { (openRow 1 1 "TEST001" 0) with
             fecha_final := some 30,
             closure_reason := some "RESCANNED_SAME_WINDOW",
             updated_at := 0 } ∧
     (openRow 1 1 "TEST001" 0).puesto_id = 1 ∧
     (openRow 1 1 "TEST001" 0).fecha_inicio = 0 ∧
     (openRow 1 1 "TEST001" 0).fecha_final = none ∧
     (openRow 2 1 "TEST001" 30).fecha_final = none ∧
     (openRow 2 1 "TEST001" 30).puesto_id = 1 ∧
     (openRow 2 1 "TEST001" 30).fecha_inicio = 30) :=
  ⟨⟨by decide, by decide, by decide, rfl, rfl⟩,
    c3_rescan_property emptyStore "TEST001" 1 1 1 0 30 none none 0 0
      _ _ _ _ (by decide) (by decide) (by decide) rfl rfl⟩


/-- Any successful `createTracking` call returns the freshly inserted row,
whose `user_id` went through the JavaScript truthiness coercion
`data.user_id || null`. -/
theorem createTracking_ok_user_id {s : Store} {d : TrackingData} {now : Timestamp}
    {s' : Store} {r : TrackingRecord}
    (h : createTracking s d now = (s', .ok r)) :
    r.user_id = truthyUserId d.user_id := by
  have hbody : ∃ sm s2, insertTracking sm d now = (s2, .ok r) := by
    unfold createTracking at h
    rcases hb : createTrackingBody s d now with ⟨sb, rb⟩
    rw [hb] at h
    cases rb with
    | error e => simp at h
    | ok rr =>
      simp only [Prod.mk.injEq, Except.ok.injEq] at h
      unfold createTrackingBody at hb
      rcases h1 : closeTrackingInOtherPuesto s d now with ⟨s1, e1⟩
      cases e1 with
      | error e => simp only [h1] at hb; simp at hb
      | ok _ =>
        simp only [h1] at hb
        cases h2 : findOpenTrackingInPuesto s1 d.puesto_id with
        | some o =>
          simp only [h2] at hb
          by_cases hsw : (o.lote == d.lote && o.instancia == d.instancia &&
              o.version == d.version) = true
          · rw [if_pos hsw] at hb
            rcases h3 : closeTracking s1 o.id d.fecha_inicio now
                "RESCANNED_SAME_WINDOW" with ⟨s2, e2⟩
            cases e2 with
            | error e => simp only [h3] at hb; simp at hb
            | ok _ =>
              simp only [h3] at hb
              exact ⟨s2, sb, by rw [hb, h.2]⟩
          · rw [if_neg hsw] at hb
            simp at hb
        | none =>
          simp only [h2] at hb
          exact ⟨s1, sb, by rw [hb, h.2]⟩
  obtain ⟨sm, s2, hins⟩ := hbody
  unfold insertTracking at hins
  by_cases hv : uniqueOpenViolation sm d = true
  · rw [if_pos hv] at hins
    simp at hins
  · rw [if_neg hv] at hins
    simp only [Prod.mk.injEq, Except.ok.injEq] at hins
    rw [← hins.2]
    rfl

/-- C10: for every scan input whose `user_id` field equals 0 (as opposed to
being absent), the interval created by a successful `createTracking` stores
`user_id = null` rather than 0, because the insert passes
`data.user_id || null`; only truthy user ids are preserved. -/
theorem c10_user_id_zero_stored_null
    (s : Store) (d : TrackingData) (now : Timestamp) (s' : Store)
    (r : TrackingRecord) (h : createTracking s d now = (s', .ok r)) :
    r.user_id = truthyUserId d.user_id ∧
    (d.user_id = some 0 → r.user_id = none) ∧
    (∀ u : Int, d.user_id = some u → u ≠ 0 → r.user_id = some u) := by
  have hu := createTracking_ok_user_id h
  refine ⟨hu, ?_, ?_⟩
  · intro h0
    rw [hu, h0]
    rfl
  · intro u hu2 hne0
    rw [hu, hu2]
    simp [truthyUserId, hne0]

/-- C10 witness: a scan carrying `user_id = 0` on the empty store succeeds
and the created row stores `user_id = null`. -/
theorem c10_user_id_zero_stored_null_witness :
    (createTracking emptyStore ⟨1, "W", 1, 1, 0, some 0⟩ 0 =
      ({ rows := [openRow 1 1 "W" 0], nextId := 2 }, .ok (openRow 1 1 "W" 0))) ∧
    ((openRow 1 1 "W" 0).user_id = truthyUserId (some 0) ∧
     ((some 0 : Option Int) = some 0 → (openRow 1 1 "W" 0).user_id = none) ∧
     (∀ u : Int, (some 0 : Option Int) = some u → u ≠ 0 →
        (openRow 1 1 "W" 0).user_id = some u)) :=
  ⟨rfl, c10_user_id_zero_stored_null emptyStore ⟨1, "W", 1, 1, 0, some 0⟩ 0 _ _ rfl⟩


/-- C1 (amended): when, after step 1 has run, the target workstation has an
open interval of a different window, `createTracking` fails with the
conflict error naming the occupying window identity and its start time, no
interval is created, and the intervals at the target workstation are
untouched — but the store is the one step 1 left behind: an open interval
of the incoming window at another workstation has already been closed with
CHAIN_TRANSITION and that mutation persists. -/
theorem c1_conflict_reject_after_chain_close
    (s : Store) (d : TrackingData) (now : Timestamp) (s1 : Store)
    (o : TrackingRecord)
    (hwf : s.WF)
    (hstep1 : closeTrackingInOtherPuesto s d now = (s1, .ok ()))
    (hfo : findOpenTrackingInPuesto s1 d.puesto_id = some o)
    (hdiff : ¬(o.lote = d.lote ∧ o.instancia = d.instancia ∧
        o.version = d.version)) :
    createTracking s d now = (s1, .error (conflictError d.puesto_id o)) ∧
    conflictError d.puesto_id o = { message := conflictMessage d.puesto_id o } ∧
    (∀ r ∈ s.rows, r.puesto_id = d.puesto_id → r ∈ s1.rows) := by
  have hb : ¬((o.lote == d.lote && o.instancia == d.instancia &&
      o.version == d.version) = true) := by
    simp only [Bool.and_eq_true, beq_iff_eq]
    exact fun hc => hdiff ⟨hc.1.1, hc.1.2, hc.2⟩
  refine ⟨?_, rfl, ?_⟩
  · unfold createTracking createTrackingBody
    simp only [hstep1, hfo]
    rw [if_neg hb]
    simp [rethrowAsGeneric, conflictError]
  · intro r hr hrp
    unfold closeTrackingInOtherPuesto at hstep1
    cases hfind : findOpenInOtherPuesto s d with
    | none =>
      simp only [hfind] at hstep1
      simp only [Prod.mk.injEq] at hstep1
      rw [← hstep1.1]
      exact hr
    | some prev =>
      simp only [hfind] at hstep1
      have hprev := pickLatest_mem hfind
      rw [List.mem_filter] at hprev
      have hprev_mem : prev ∈ s.rows := hprev.1
      have hprev_other : prev.puesto_id ≠ d.puesto_id := by
        have := hprev.2
        simp only [Bool.and_eq_true, bne_iff_ne] at this
        exact this.1.2
      unfold closeTracking at hstep1
      by_cases hcv : closeCheckViolation s prev.id d.fecha_inicio = true
      · rw [if_pos hcv] at hstep1
        simp at hstep1
      · rw [if_neg hcv] at hstep1
        simp only [Prod.mk.injEq] at hstep1
        rw [← hstep1.1]
        have hne : r.id ≠ prev.id := by
          intro hid
          have := eq_of_mem_nodup_ids hwf.2 hr hprev_mem hid
          rw [this] at hrp
          exact hprev_other hrp
        exact List.mem_map.2 ⟨r, hr, closeRowIfId_of_ne hne _ _ _⟩

/-- C1 witness: the amended conflict behavior at the concrete store with
window W open at workstation 1 and window B open at workstation 2, scanning
W at workstation 2. -/
theorem c1_conflict_reject_after_chain_close_witness :
    (c1Store.WF ∧
     closeTrackingInOtherPuesto c1Store c1Data 0 =
       ({ rows := [{ (openRow 1 1 "W" 0) with
                     fecha_final := some 10,
                     closure_reason := some "CHAIN_TRANSITION" },
                   openRow 2 2 "B" 0], nextId := 3 }, .ok ()) ∧
     findOpenTrackingInPuesto
       { rows := [{ (openRow 1 1 "W" 0) with
                    fecha_final := some 10,
                    closure_reason := some "CHAIN_TRANSITION" },
                  openRow 2 2 "B" 0], nextId := 3 } c1Data.puesto_id =
       some (openRow 2 2 "B" 0) ∧
     ¬((openRow 2 2 "B" 0).lote = c1Data.lote ∧
       (openRow 2 2 "B" 0).instancia = c1Data.instancia ∧
       (openRow 2 2 "B" 0).version = c1Data.version)) ∧
    (createTracking c1Store c1Data 0 =
       ({ rows := [{ (openRow 1 1 "W" 0) with
                     fecha_final := some 10,
                     closure_reason := some "CHAIN_TRANSITION" },
                   openRow 2 2 "B" 0], nextId := 3 },
         .error (conflictError c1Data.puesto_id (openRow 2 2 "B" 0))) ∧
     conflictError c1Data.puesto_id (openRow 2 2 "B" 0) =
       { message := conflictMessage c1Data.puesto_id (openRow 2 2 "B" 0) } ∧
     (∀ r ∈ c1Store.rows, r.puesto_id = c1Data.puesto_id →
        r ∈ ({ rows := [{ (openRow 1 1 "W" 0) with
                          fecha_final := some 10,
                          closure_reason := some "CHAIN_TRANSITION" },
                        openRow 2 2 "B" 0], nextId := 3 } : Store).rows)) :=
  ⟨⟨by decide, rfl, rfl, by decide⟩,
    c1_conflict_reject_after_chain_close c1Store c1Data 0 _ _
      (by decide) rfl rfl (by decide)⟩


theorem find?_append_left {l1 l2 : List TrackingRecord} {p : TrackingRecord → Bool}
    {r : TrackingRecord} (h : l1.find? p = some r) : (l1 ++ l2).find? p = some r := by
  rw [List.find?_append, h]
  rfl

theorem closeTracking_fst_WF {s : Store} (hwf : s.WF) (j : Nat) (t now : Timestamp)
    (rsn : String) : ((closeTracking s j t now rsn).1).WF := by
  unfold closeTracking
  split
  · exact hwf
  · constructor
    · intro r hr
      obtain ⟨x, hx, rfl⟩ := List.mem_map.1 hr
      rw [closeRowIfId_id]
      exact hwf.1 x hx
    · have hm : (s.rows.map (closeRowIfId j t rsn now)).map (fun r => r.id) =
          s.rows.map (fun r => r.id) := by
        rw [List.map_map]
        exact List.map_congr_left (fun x _ => closeRowIfId_id j t rsn now x)
      show ((s.rows.map (closeRowIfId j t rsn now)).map (fun r => r.id)).Nodup
      rw [hm]
      exact hwf.2

/-- Closing any id leaves every row with a different id untouched. -/
theorem getTracking_closeTracking_of_ne {s : Store} {j : Nat} {t now : Timestamp}
    {rsn : String} {i : Nat} {r : TrackingRecord} (hne : i ≠ j)
    (hget : getTracking s i = some r) :
    getTracking (closeTracking s j t now rsn).1 i = some r := by
  have hid := getTracking_id hget
  unfold closeTracking
  split
  · exact hget
  · unfold getTracking
    rw [find?_map_closeRowIfId]
    unfold getTracking at hget
    rw [hget]
    have hne2 : r.id ≠ j := by rw [hid]; exact hne
    simp [closeRowIfId_of_ne hne2]

/-- Closing a target that only open rows can match leaves closed rows
untouched. -/
theorem getTracking_close_preserves_closed {s : Store} {j : Nat}
    {t now : Timestamp} {rsn : String} {i : Nat} {r : TrackingRecord}
    (hget : getTracking s i = some r) (hclosed : r.fecha_final ≠ none)
    (hopen : ∀ x ∈ s.rows, x.id = j → x.fecha_final = none) :
    getTracking (closeTracking s j t now rsn).1 i = some r := by
  have hne : i ≠ j := by
    intro he
    exact hclosed (hopen r (getTracking_mem hget) (by rw [getTracking_id hget, he]))
  exact getTracking_closeTracking_of_ne hne hget

theorem getTracking_insertTracking {s : Store} {d : TrackingData} {now : Timestamp}
    {i : Nat} {r : TrackingRecord} (h : getTracking s i = some r) :
    getTracking (insertTracking s d now).1 i = some r := by
  unfold insertTracking
  split
  · exact h
  · unfold getTracking
    exact find?_append_left h

theorem closeTrackingInOtherPuesto_fst_WF {s : Store} {d : TrackingData}
    (now : Timestamp) (hwf : s.WF) :
    ((closeTrackingInOtherPuesto s d now).1).WF := by
  unfold closeTrackingInOtherPuesto
  cases hf : findOpenInOtherPuesto s d with
  | none => simp only [hf]; exact hwf
  | some prev =>
    simp only [hf]
    exact closeTracking_fst_WF hwf prev.id d.fecha_inicio now "CHAIN_TRANSITION"

/-- Chain-close (step 1) leaves closed rows untouched. -/
theorem getTracking_step1_preserves_closed {s : Store} {d : TrackingData}
    {now : Timestamp} {i : Nat} {r : TrackingRecord} (hwf : s.WF)
    (hget : getTracking s i = some r) (hclosed : r.fecha_final ≠ none) :
    getTracking (closeTrackingInOtherPuesto s d now).1 i = some r := by
  unfold closeTrackingInOtherPuesto
  cases hf : findOpenInOtherPuesto s d with
  | none => simp only [hf]; exact hget
  | some prev =>
    simp only [hf]
    have hprev := pickLatest_mem hf
    rw [List.mem_filter] at hprev
    have hprev_open : prev.fecha_final = none := by
      have := hprev.2
      simp only [Bool.and_eq_true, Option.isNone_iff_eq_none] at this
      exact this.2
    exact getTracking_close_preserves_closed hget hclosed
      (fun x hx hxid => by
        rw [eq_of_mem_nodup_ids hwf.2 hx hprev.1 hxid]
        exact hprev_open)


/-- C8 (amended): `closeTracking` never fails with NotFoundError.  When the
interval id does not exist, the UPDATE matches no rows and the call returns
success with the store unchanged; when it exists (with an end time at or
after its start time — otherwise the storage range check rejects), it sets
`end_time` and `closure_reason` and returns without error. -/
theorem c8_close_unconditional
    (s : Store) (i : Nat) (t now : Timestamp) (rsn : String) :
    ((∀ r ∈ s.rows, r.id ≠ i) → closeTracking s i t now rsn = (s, .ok ())) ∧
    (∀ r : TrackingRecord, s.WF → getTracking s i = some r →
      r.fecha_inicio ≤ t →
      (closeTracking s i t now rsn).2 = .ok () ∧
      getTracking (closeTracking s i t now rsn).1 i =
        some { r with
               fecha_final := some t,
               closure_reason := some rsn,
               updated_at := now }) := by
  constructor
  · intro hno
    have hcv : closeCheckViolation s i t = false := by
      rw [closeCheckViolation, List.any_eq_false]
      intro x hx
      simp only [Bool.and_eq_true, beq_iff_eq, decide_eq_true_eq, not_and]
      intro hxid
      exact absurd hxid (hno x hx)
    unfold closeTracking
    rw [if_neg (by simp [hcv])]
    rw [map_closeRowIfId_of_ne hno]
  · intro r hwf hget hle
    have hcv : closeCheckViolation s i t = false := by
      rw [closeCheckViolation, List.any_eq_false]
      intro x hx
      simp only [Bool.and_eq_true, beq_iff_eq, decide_eq_true_eq, not_and]
      intro hxid
      have hx_eq : x = r := eq_of_mem_nodup_ids hwf.2 hx (getTracking_mem hget)
        (by rw [hxid, getTracking_id hget])
      rw [hx_eq]
      exact not_lt.2 hle
    constructor
    · unfold closeTracking
      rw [if_neg (by simp [hcv])]
    · unfold closeTracking
      rw [if_neg (by simp [hcv])]
      unfold getTracking
      show (s.rows.map (closeRowIfId i t rsn now)).find? (fun x => x.id == i) = _
      rw [find?_map_closeRowIfId]
      unfold getTracking at hget
      rw [hget]
      rw [show (some r).map (closeRowIfId i t rsn now) =
          some (closeRowIfId i t rsn now r) from rfl]
      rw [closeRowIfId_self (getTracking_id hget)]

/-- C8 witness: on a one-row store, closing the nonexistent id 7 is a
successful no-op, and closing the existing id 1 with a valid end time sets
`end_time` and `closure_reason` without error. -/
theorem c8_close_unconditional_witness :
    (closeTracking { rows := [openRow 1 1 "W" 0], nextId := 2 } 7 20 5
        "MANUAL_CLOSE" =
      ({ rows := [openRow 1 1 "W" 0], nextId := 2 }, .ok ())) ∧
    ((closeTracking { rows := [openRow 1 1 "W" 0], nextId := 2 } 1 20 5
        "MANUAL_CLOSE").2 = .ok () ∧
      getTracking (closeTracking { rows := [openRow 1 1 "W" 0], nextId := 2 }
          1 20 5 "MANUAL_CLOSE").1 1 =
        some { (openRow 1 1 "W" 0) with
               fecha_final := some 20,
               closure_reason := some "MANUAL_CLOSE",
               updated_at := 5 }) :=
  ⟨(c8_close_unconditional { rows := [openRow 1 1 "W" 0], nextId := 2 }
      7 20 5 "MANUAL_CLOSE").1 (by decide),
   (c8_close_unconditional { rows := [openRow 1 1 "W" 0], nextId := 2 }
      1 20 5 "MANUAL_CLOSE").2 (openRow 1 1 "W" 0) (by decide) rfl (by decide)⟩

/-- C9 (amended): a closed interval is never modified by `createTracking`
(its closes target only rows found open), and `closeTracking` modifies only
the row with the given id — but a further `closeTracking` call on a closed
row's own id does overwrite it, as the counterexample shows. -/
theorem c9_closed_rows_immutable_except_reclose :
    (∀ (s : Store) (d : TrackingData) (now : Timestamp) (i : Nat)
        (r : TrackingRecord), s.WF → getTracking s i = some r →
      r.fecha_final ≠ none → getTracking (createTracking s d now).1 i = some r) ∧
    (∀ (s : Store) (j : Nat) (t now : Timestamp) (rsn : String) (i : Nat)
        (r : TrackingRecord), i ≠ j → getTracking s i = some r →
      getTracking (closeTracking s j t now rsn).1 i = some r) := by
  constructor
  · intro s d now i r hwf hget hclosed
    unfold createTracking
    rcases hb : createTrackingBody s d now with ⟨sb, rb⟩
    have hsb : getTracking sb i = some r := by
      unfold createTrackingBody at hb
      rcases h1 : closeTrackingInOtherPuesto s d now with ⟨s1, e1⟩
      have hs1 : getTracking s1 i = some r := by
        have hfst : (closeTrackingInOtherPuesto s d now).1 = s1 := congrArg Prod.fst h1
        rw [← hfst]
        exact getTracking_step1_preserves_closed hwf hget hclosed
      have hwf1 : s1.WF := by
        have hfst : (closeTrackingInOtherPuesto s d now).1 = s1 := congrArg Prod.fst h1
        rw [← hfst]
        exact closeTrackingInOtherPuesto_fst_WF now hwf
      cases e1 with
      | error e =>
        simp only [h1] at hb
        simp only [Prod.mk.injEq] at hb
        rw [← hb.1]
        exact hs1
      | ok u =>
        simp only [h1] at hb
        cases hfo : findOpenTrackingInPuesto s1 d.puesto_id with
        | none =>
          simp only [hfo] at hb
          have hfst : (insertTracking s1 d now).1 = sb := congrArg Prod.fst hb
          rw [← hfst]
          exact getTracking_insertTracking hs1
        | some o =>
          simp only [hfo] at hb
          have ho := pickLatest_mem hfo
          rw [List.mem_filter] at ho
          have ho_open : o.fecha_final = none := by
            have := ho.2
            simp only [Bool.and_eq_true, Option.isNone_iff_eq_none] at this
            exact this.2
          by_cases hsw : (o.lote == d.lote && o.instancia == d.instancia &&
              o.version == d.version) = true
          · rw [if_pos hsw] at hb
            rcases h3 : closeTracking s1 o.id d.fecha_inicio now
                "RESCANNED_SAME_WINDOW" with ⟨s2, e2⟩
            have hs2 : getTracking s2 i = some r := by
              have hfst : (closeTracking s1 o.id d.fecha_inicio now
                  "RESCANNED_SAME_WINDOW").1 = s2 := congrArg Prod.fst h3
              rw [← hfst]
              exact getTracking_close_preserves_closed hs1 hclosed
                (fun x hx hxid => by
                  rw [eq_of_mem_nodup_ids hwf1.2 hx ho.1 hxid]
                  exact ho_open)
            cases e2 with
            | error e =>
              simp only [h3] at hb
              simp only [Prod.mk.injEq] at hb
              rw [← hb.1]
              exact hs2
            | ok u2 =>
              simp only [h3] at hb
              have hfst : (insertTracking s2 d now).1 = sb := congrArg Prod.fst hb
              rw [← hfst]
              exact getTracking_insertTracking hs2
          · rw [if_neg hsw] at hb
            simp only [Prod.mk.injEq] at hb
            rw [← hb.1]
            exact hs1
    cases rb with
    | ok rr => simpa using hsb
    | error e => simpa using hsb
  · intro s j t now rsn i r hne hget
    exact getTracking_closeTracking_of_ne hne hget

/-- C9 witness: in a store with the closed interval `[0,10]` (id 1) and the
open window W at workstation 2 (id 2), a scan of W at workstation 3 (which
chain-closes id 2) leaves the closed id 1 untouched, and a `closeTracking`
aimed at id 2 leaves id 1 untouched as well. -/
theorem c9_closed_rows_immutable_except_reclose_witness :
    (getTracking
        (createTracking
          { rows := [{ (openRow 1 1 "W" 0) with
                       fecha_final := some 10,
                       closure_reason := some "MANUAL_CLOSE" },
                     openRow 2 2 "V" 0], nextId := 3 }
          ⟨3, "V", 1, 1, 20, none⟩ 0).1 1 =
      some { (openRow 1 1 "W" 0) with
             fecha_final := some 10,
             closure_reason := some "MANUAL_CLOSE" }) ∧
    (getTracking
        (closeTracking
          { rows := [{ (openRow 1 1 "W" 0) with
                       fecha_final := some 10,
                       closure_reason := some "MANUAL_CLOSE" },
                     openRow 2 2 "V" 0], nextId := 3 }
          2 20 5 "MANUAL_CLOSE").1 1 =
      some { (openRow 1 1 "W" 0) with
             fecha_final := some 10,
             closure_reason := some "MANUAL_CLOSE" }) :=
  ⟨c9_closed_rows_immutable_except_reclose.1
      { rows := [{ (openRow 1 1 "W" 0) with
                   fecha_final := some 10,
                   closure_reason := some "MANUAL_CLOSE" },
                 openRow 2 2 "V" 0], nextId := 3 }
      ⟨3, "V", 1, 1, 20, none⟩ 0 1 _ (by decide) rfl (by decide),
   c9_closed_rows_immutable_except_reclose.2
      { rows := [{ (openRow 1 1 "W" 0) with
                   fecha_final := some 10,
                   closure_reason := some "MANUAL_CLOSE" },
                 openRow 2 2 "V" 0], nextId := 3 }
      2 20 5 "MANUAL_CLOSE" 1 _ (by decide) rfl⟩


/-- C6 (amended): when the final insert hits the storage unique-constraint
violation (SQLSTATE 23505), `createTracking` fails — but by rethrowing a
newly constructed generic `Error` with a fixed message and no error code or
constraint attached.  The violation is detected by inspecting the storage
error code, yet no typed retryable `ConcurrencyConflictError` variant
exists: the thrown error is machine-indistinguishable from any other plain
`Error`. -/
theorem c6_unique_violation_rethrown_generic
    (s : Store) (d : TrackingData) (now : Timestamp) (s1 s2 : Store)
    (o : TrackingRecord)
    (hstep1 : closeTrackingInOtherPuesto s d now = (s1, .ok ()))
    (hfo : findOpenTrackingInPuesto s1 d.puesto_id = some o)
    (hsame : o.lote = d.lote ∧ o.instancia = d.instancia ∧
      o.version = d.version)
    (hclose : closeTracking s1 o.id d.fecha_inicio now "RESCANNED_SAME_WINDOW" =
      (s2, .ok ()))
    (hviol : uniqueOpenViolation s2 d = true) :
    createTracking s d now = (s2, .error dbConstraintGenericError) ∧
    dbConstraintGenericError.code = none ∧
    dbConstraintGenericError.constraintName = none ∧
    uniqueViolationError.code = some "23505" := by
  have hbool : (o.lote == d.lote && o.instancia == d.instancia &&
      o.version == d.version) = true := by
    simp [hsame.1, hsame.2.1, hsame.2.2]
  refine ⟨?_, rfl, rfl, rfl⟩
  unfold createTracking createTrackingBody
  simp only [hstep1, hfo, hbool, if_true, hclose]
  unfold insertTracking
  rw [if_pos hviol]
  simp [rethrowAsGeneric, uniqueViolationError]

/-- C6 witness: the amended behavior at the concrete store `c6Store` whose
two open rows for the same (workstation, window) pair drive the insert into
the 23505 violation. -/
theorem c6_unique_violation_rethrown_generic_witness :
    (closeTrackingInOtherPuesto c6Store c6Data 0 = (c6Store, .ok ()) ∧
     findOpenTrackingInPuesto c6Store c6Data.puesto_id =
       some (openRow 2 1 "W" 5) ∧
     ((openRow 2 1 "W" 5).lote = c6Data.lote ∧
      (openRow 2 1 "W" 5).instancia = c6Data.instancia ∧
      (openRow 2 1 "W" 5).version = c6Data.version) ∧
     closeTracking c6Store (openRow 2 1 "W" 5).id c6Data.fecha_inicio 0
        "RESCANNED_SAME_WINDOW" =
       ({ rows := [openRow 1 1 "W" 0,
                   { (openRow 2 1 "W" 5) with
                     fecha_final := some 10,
                     closure_reason := some "RESCANNED_SAME_WINDOW" }],
          nextId := 3 }, .ok ()) ∧
     uniqueOpenViolation
       { rows := [openRow 1 1 "W" 0,
                  { (openRow 2 1 "W" 5) with
                    fecha_final := some 10,
                    closure_reason := some "RESCANNED_SAME_WINDOW" }],
         nextId := 3 } c6Data = true) ∧
    (createTracking c6Store c6Data 0 =
       ({ rows := [openRow 1 1 "W" 0,
                   { (openRow 2 1 "W" 5) with
                     fecha_final := some 10,
                     closure_reason := some "RESCANNED_SAME_WINDOW" }],
          nextId := 3 }, .error dbConstraintGenericError) ∧
     dbConstraintGenericError.code = none ∧
     dbConstraintGenericError.constraintName = none ∧
     uniqueViolationError.code = some "23505") :=
  ⟨⟨rfl, rfl, by decide, rfl, rfl⟩,
    c6_unique_violation_rethrown_generic c6Store c6Data 0 _ _ _
      rfl rfl (by decide) rfl rfl⟩


/-- C7 (amended): `createTracking` performs no input validation.  Whatever
the identity and ids — including an empty lote, negative instancia or
version, or a non-positive workstation id — the call runs the normal
algorithm; on the empty store it always succeeds, inserting the malformed
values verbatim, and never produces a ValidationError (no such error exists
in the code). -/
theorem c7_no_input_validation (pid : Int) (l : String) (a v : Int)
    (t : Timestamp) (uid : Option Int) (now : Timestamp) :
    createTracking emptyStore ⟨pid, l, a, v, t, uid⟩ now =
      ({ rows := [newTrackingRecord emptyStore ⟨pid, l, a, v, t, uid⟩ now],
         nextId := 2 },
        .ok (newTrackingRecord emptyStore ⟨pid, l, a, v, t, uid⟩ now)) ∧
    (newTrackingRecord emptyStore ⟨pid, l, a, v, t, uid⟩ now).lote = l ∧
    (newTrackingRecord emptyStore ⟨pid, l, a, v, t, uid⟩ now).puesto_id = pid ∧
    (newTrackingRecord emptyStore ⟨pid, l, a, v, t, uid⟩ now).instancia = a ∧
    (newTrackingRecord emptyStore ⟨pid, l, a, v, t, uid⟩ now).version = v ∧
    (newTrackingRecord emptyStore ⟨pid, l, a, v, t, uid⟩ now).fecha_inicio = t :=
  ⟨rfl, rfl, rfl, rfl, rfl, rfl⟩


theorem close_ok_parts {s : Store} {j : Nat} {t now : Timestamp} {rsn : String}
    {s2 : Store} (h : closeTracking s j t now rsn = (s2, .ok ())) :
    closeCheckViolation s j t = false ∧
    s2 = { s with rows := s.rows.map (closeRowIfId j t rsn now) } := by
  unfold closeTracking at h
  by_cases hcv : closeCheckViolation s j t = true
  · rw [if_pos hcv] at h
    simp at h
  · rw [if_neg hcv] at h
    simp only [Prod.mk.injEq] at h
    refine ⟨?_, h.1.symm⟩
    cases hb : closeCheckViolation s j t with
    | false => rfl
    | true => exact absurd hb hcv

theorem getTracking_close_self_closed {s : Store} {tgt : TrackingRecord}
    {t now : Timestamp} {rsn : String} {s2 : Store}
    (hwf : s.WF) (htgt : tgt ∈ s.rows)
    (h : closeTracking s tgt.id t now rsn = (s2, .ok ())) :
    getTracking s2 tgt.id =
      some { tgt with
             fecha_final := some t,
             closure_reason := some rsn,
             updated_at := now } := by
  obtain ⟨_, hs2⟩ := close_ok_parts h
  rw [hs2]
  unfold getTracking
  show (s.rows.map (closeRowIfId tgt.id t rsn now)).find? (fun x => x.id == tgt.id) = _
  rw [find?_map_closeRowIfId, find?_eq_some_of_nodup hwf.2 htgt]
  rw [show (some tgt).map (closeRowIfId tgt.id t rsn now) =
      some (closeRowIfId tgt.id t rsn now tgt) from rfl]
  rw [closeRowIfId_self rfl]

theorem getTracking_close_none {s : Store} {j : Nat} {t now : Timestamp}
    {rsn : String} {i : Nat} (hnone : getTracking s i = none) :
    getTracking (closeTracking s j t now rsn).1 i = none := by
  unfold closeTracking
  split
  · exact hnone
  · unfold getTracking
    show (s.rows.map (closeRowIfId j t rsn now)).find? (fun x => x.id == i) = none
    rw [find?_map_closeRowIfId]
    unfold getTracking at hnone
    rw [hnone]
    rfl

theorem insertTracking_new_of_none {s : Store} {d : TrackingData}
    {now : Timestamp} {i : Nat} {rn : TrackingRecord}
    (hnone : getTracking s i = none)
    (h : getTracking (insertTracking s d now).1 i = some rn) :
    rn = newTrackingRecord s d now ∧ i = s.nextId := by
  unfold insertTracking at h
  split at h
  · rw [hnone] at h
    cases h
  · unfold getTracking at h hnone
    rw [List.find?_append, hnone] at h
    rw [show (Option.or none ([newTrackingRecord s d now].find?
        (fun r => r.id == i))) = [newTrackingRecord s d now].find?
        (fun r => r.id == i) from rfl] at h
    rw [List.find?_cons_eq_some] at h
    rcases h with ⟨hpa, rfl⟩ | ⟨_, hnil⟩
    · refine ⟨rfl, ?_⟩
      have hii := (beq_iff_eq).1 hpa
      rw [← hii]
      rfl
    · cases hnil

theorem not_two_open_window {s : Store} {d : TrackingData}
    (hone : (s.rows.filter (fun r => r.lote == d.lote &&
      r.instancia == d.instancia && r.version == d.version &&
      r.fecha_final.isNone)).length ≤ 1)
    {x y : TrackingRecord} (hx : x ∈ s.rows) (hy : y ∈ s.rows) (hxy : x ≠ y)
    (hxw : x.lote = d.lote ∧ x.instancia = d.instancia ∧
      x.version = d.version ∧ x.fecha_final = none)
    (hyw : y.lote = d.lote ∧ y.instancia = d.instancia ∧
      y.version = d.version ∧ y.fecha_final = none) : False := by
  have hx2 : x ∈ s.rows.filter (fun r => r.lote == d.lote &&
      r.instancia == d.instancia && r.version == d.version &&
      r.fecha_final.isNone) := by
    rw [List.mem_filter]
    refine ⟨hx, ?_⟩
    simp [hxw.1, hxw.2.1, hxw.2.2.1, hxw.2.2.2]
  have hy2 : y ∈ s.rows.filter (fun r => r.lote == d.lote &&
      r.instancia == d.instancia && r.version == d.version &&
      r.fecha_final.isNone) := by
    rw [List.mem_filter]
    refine ⟨hy, ?_⟩
    simp [hyw.1, hyw.2.1, hyw.2.2.1, hyw.2.2.2]
  have := two_mem_le_length hx2 hy2 hxy
  omega


theorem closeTracking_error_fst {s : Store} {j : Nat} {t now : Timestamp}
    {rsn : String} {s2 : Store} {e : JsError}
    (h : closeTracking s j t now rsn = (s2, .error e)) : s2 = s := by
  unfold closeTracking at h
  split at h
  · simp only [Prod.mk.injEq] at h
    exact h.1.symm
  · simp at h

/-- C4 (amended): for every well-formed store in which the incoming window
has at most one open interval, a single `createTracking` call closes at most
one prior interval — never two — and leaves every interval other than the
one it closes and the one it creates unchanged.  (The unamended claim, over
every store state, fails: with the same window open at two workstations one
call performs both a chain close and a rescan close.) -/
theorem c4_closes_at_most_one
    (s : Store) (d : TrackingData) (now : Timestamp)
    (hwf : s.WF)
    (hone : (s.rows.filter (fun r => r.lote == d.lote &&
      r.instancia == d.instancia && r.version == d.version &&
      r.fecha_final.isNone)).length ≤ 1) :
    ∃ co : Option Nat,
      (∀ (i : Nat) (r : TrackingRecord), getTracking s i = some r →
        some i ≠ co → getTracking (createTracking s d now).1 i = some r) ∧
      (∀ j : Nat, co = some j → ∃ ro : TrackingRecord,
        getTracking s j = some ro ∧ ro.fecha_final = none ∧
        ∃ rsn : String, getTracking (createTracking s d now).1 j =
          some { ro with
                 fecha_final := some d.fecha_inicio,
                 closure_reason := some rsn,
                 updated_at := now }) ∧
      (∀ (i : Nat) (rn : TrackingRecord), getTracking s i = none →
        getTracking (createTracking s d now).1 i = some rn →
        rn.fecha_final = none ∧ rn.id = s.nextId ∧ i = s.nextId) := by
  rcases hb : createTrackingBody s d now with ⟨sb, rb⟩
  have hs' : (createTracking s d now).1 = sb := by
    unfold createTracking
    rw [hb]
    cases rb <;> rfl
  rw [hs']
  unfold createTrackingBody at hb
  rcases h1 : closeTrackingInOtherPuesto s d now with ⟨s1, e1⟩
  cases e1 with
  | error e =>
    simp only [h1] at hb
    simp only [Prod.mk.injEq] at hb
    obtain ⟨hsb, _⟩ := hb
    have hs1 : s1 = s := by
      unfold closeTrackingInOtherPuesto at h1
      cases hf : findOpenInOtherPuesto s d with
      | none => simp only [hf] at h1; simp at h1
      | some prev =>
        simp only [hf] at h1
        exact closeTracking_error_fst h1
    refine ⟨none, ?_, ?_, ?_⟩
    · intro i r hget _
      rw [← hsb, hs1]
      exact hget
    · intro j hj
      exact Option.noConfusion hj
    · intro i rn hnone hsome
      rw [← hsb, hs1, hnone] at hsome
      cases hsome
  | ok u =>
    simp only [h1] at hb
    have hstep1 : s1 = s ∨ ∃ prev : TrackingRecord, prev ∈ s.rows ∧
        prev.fecha_final = none ∧ prev.lote = d.lote ∧
        prev.instancia = d.instancia ∧ prev.version = d.version ∧
        prev.puesto_id ≠ d.puesto_id ∧
        closeTracking s prev.id d.fecha_inicio now "CHAIN_TRANSITION" =
          (s1, .ok ()) := by
      unfold closeTrackingInOtherPuesto at h1
      cases hf : findOpenInOtherPuesto s d with
      | none =>
        simp only [hf] at h1
        simp only [Prod.mk.injEq] at h1
        exact Or.inl h1.1.symm
      | some prev =>
        simp only [hf] at h1
        have hm := pickLatest_mem hf
        rw [List.mem_filter] at hm
        have hprops := hm.2
        simp only [Bool.and_eq_true, beq_iff_eq, bne_iff_ne,
          Option.isNone_iff_eq_none] at hprops
        exact Or.inr ⟨prev, hm.1, hprops.2, hprops.1.1.1.1, hprops.1.1.1.2,
          hprops.1.1.2, hprops.1.2, h1⟩
    cases hfo : findOpenTrackingInPuesto s1 d.puesto_id with
    | none =>
      simp only [hfo] at hb
      rcases hstep1 with hs1 | ⟨prev, hpmem, hpopen, _, _, _, _, hclose⟩
      · -- no close at all: plain insert on s
        subst hs1
        have hfst : (insertTracking s1 d now).1 = sb := congrArg Prod.fst hb
        refine ⟨none, ?_, ?_, ?_⟩
        · intro i r hget _
          rw [← hfst]
          exact getTracking_insertTracking hget
        · intro j hj
          exact Option.noConfusion hj
        · intro i rn hnone hsome
          rw [← hfst] at hsome
          obtain ⟨hrn, hi⟩ := insertTracking_new_of_none hnone hsome
          subst hrn
          exact ⟨rfl, rfl, hi⟩
      · -- chain close of prev, then insert
        have hfst : (insertTracking s1 d now).1 = sb := congrArg Prod.fst hb
        have hcfst : (closeTracking s prev.id d.fecha_inicio now
            "CHAIN_TRANSITION").1 = s1 := congrArg Prod.fst hclose
        have hnext : s1.nextId = s.nextId := by
          rw [(close_ok_parts hclose).2]
        refine ⟨some prev.id, ?_, ?_, ?_⟩
        · intro i r hget hne
          have hne2 : i ≠ prev.id := fun he => hne (by rw [he])
          have hs1get : getTracking s1 i = some r := by
            rw [← hcfst]
            exact getTracking_closeTracking_of_ne hne2 hget
          rw [← hfst]
          exact getTracking_insertTracking hs1get
        · intro j hj
          obtain rfl := Option.some.injEq _ _ ▸ hj
          refine ⟨prev, find?_eq_some_of_nodup hwf.2 hpmem, hpopen,
            "CHAIN_TRANSITION", ?_⟩
          have hs1get : getTracking s1 prev.id =
              some { prev with
                     fecha_final := some d.fecha_inicio,
                     closure_reason := some "CHAIN_TRANSITION",
                     updated_at := now } :=
            getTracking_close_self_closed hwf hpmem hclose
          rw [← hfst]
          exact getTracking_insertTracking hs1get
        · intro i rn hnone hsome
          have hs1none : getTracking s1 i = none := by
            rw [← hcfst]
            exact getTracking_close_none hnone
          rw [← hfst] at hsome
          obtain ⟨hrn, hi⟩ := insertTracking_new_of_none hs1none hsome
          subst hrn
          rw [hnext] at hi
          exact ⟨rfl, hnext, hi⟩
    | some o =>
      simp only [hfo] at hb
      have ho := pickLatest_mem hfo
      rw [List.mem_filter] at ho
      have ho_props := ho.2
      simp only [Bool.and_eq_true, beq_iff_eq, Option.isNone_iff_eq_none] at ho_props
      by_cases hsw : (o.lote == d.lote && o.instancia == d.instancia &&
          o.version == d.version) = true
      · rw [if_pos hsw] at hb
        have hswp : o.lote = d.lote ∧ o.instancia = d.instancia ∧
            o.version = d.version := by
          simp only [Bool.and_eq_true, beq_iff_eq] at hsw
          exact ⟨hsw.1.1, hsw.1.2, hsw.2⟩
        rcases hstep1 with hs1 | ⟨prev, hpmem, hpopen, hpl, hpi, hpv, hpp, hclose⟩
        · -- rescan close of o (the only close), then insert
          subst hs1
          rcases h3 : closeTracking s1 o.id d.fecha_inicio now
              "RESCANNED_SAME_WINDOW" with ⟨s2, e2⟩
          cases e2 with
          | error e2v =>
            simp only [h3] at hb
            simp only [Prod.mk.injEq] at hb
            obtain ⟨hsb, _⟩ := hb
            have hs2 : s2 = s1 := closeTracking_error_fst h3
            refine ⟨none, ?_, ?_, ?_⟩
            · intro i r hget _
              rw [← hsb, hs2]
              exact hget
            · intro j hj
              exact Option.noConfusion hj
            · intro i rn hnone hsome
              rw [← hsb, hs2, hnone] at hsome
              cases hsome
          | ok u2 =>
            simp only [h3] at hb
            have hfst : (insertTracking s2 d now).1 = sb := congrArg Prod.fst hb
            have hcfst : (closeTracking s1 o.id d.fecha_inicio now
                "RESCANNED_SAME_WINDOW").1 = s2 := congrArg Prod.fst h3
            have hnext : s2.nextId = s1.nextId := by
              rw [(close_ok_parts h3).2]
            refine ⟨some o.id, ?_, ?_, ?_⟩
            · intro i r hget hne
              have hne2 : i ≠ o.id := fun he => hne (by rw [he])
              have hs2get : getTracking s2 i = some r := by
                rw [← hcfst]
                exact getTracking_closeTracking_of_ne hne2 hget
              rw [← hfst]
              exact getTracking_insertTracking hs2get
            · intro j hj
              obtain rfl := Option.some.injEq _ _ ▸ hj
              refine ⟨o, find?_eq_some_of_nodup hwf.2 ho.1, ho_props.2,
                "RESCANNED_SAME_WINDOW", ?_⟩
              have hs2get : getTracking s2 o.id =
                  some { o with
                         fecha_final := some d.fecha_inicio,
                         closure_reason := some "RESCANNED_SAME_WINDOW",
                         updated_at := now } :=
                getTracking_close_self_closed hwf ho.1 h3
              rw [← hfst]
              exact getTracking_insertTracking hs2get
            · intro i rn hnone hsome
              have hs2none : getTracking s2 i = none := by
                rw [← hcfst]
                exact getTracking_close_none hnone
              rw [← hfst] at hsome
              obtain ⟨hrn, hi⟩ := insertTracking_new_of_none hs2none hsome
              subst hrn
              rw [hnext] at hi
              exact ⟨rfl, hnext, hi⟩
        · -- both a chain target and a rescan target would exist:
          -- contradicts the at-most-one-open hypothesis
          exfalso
          have hs1rows : s1.rows = s.rows.map (closeRowIfId prev.id
              d.fecha_inicio "CHAIN_TRANSITION" now) := by
            rw [(close_ok_parts hclose).2]
          have homem := ho.1
          rw [hs1rows] at homem
          obtain ⟨x, hx, hfx⟩ := List.mem_map.1 homem
          have hxid : x.id ≠ prev.id := by
            intro he
            rw [closeRowIfId_self he d.fecha_inicio "CHAIN_TRANSITION" now] at hfx
            rw [← hfx] at ho_props
            cases ho_props.2
          rw [closeRowIfId_of_ne hxid _ _ _] at hfx
          subst hfx
          have hxp : x.puesto_id = d.puesto_id := ho_props.1
          exact not_two_open_window hone hx hpmem
            (fun he => hpp (by rw [← he]; exact hxp))
            ⟨hswp.1, hswp.2.1, hswp.2.2, ho_props.2⟩
            ⟨hpl, hpi, hpv, hpopen⟩
      · rw [if_neg hsw] at hb
        simp only [Prod.mk.injEq] at hb
        obtain ⟨hsb, _⟩ := hb
        rcases hstep1 with hs1 | ⟨prev, hpmem, hpopen, _, _, _, _, hclose⟩
        · subst hs1
          refine ⟨none, ?_, ?_, ?_⟩
          · intro i r hget _
            rw [← hsb]
            exact hget
          · intro j hj
            exact Option.noConfusion hj
          · intro i rn hnone hsome
            rw [← hsb, hnone] at hsome
            cases hsome
        · have hcfst : (closeTracking s prev.id d.fecha_inicio now
              "CHAIN_TRANSITION").1 = s1 := congrArg Prod.fst hclose
          refine ⟨some prev.id, ?_, ?_, ?_⟩
          · intro i r hget hne
            have hne2 : i ≠ prev.id := fun he => hne (by rw [he])
            rw [← hsb, ← hcfst]
            exact getTracking_closeTracking_of_ne hne2 hget
          · intro j hj
            obtain rfl := Option.some.injEq _ _ ▸ hj
            refine ⟨prev, find?_eq_some_of_nodup hwf.2 hpmem, hpopen,
              "CHAIN_TRANSITION", ?_⟩
            rw [← hsb]
            exact getTracking_close_self_closed hwf hpmem hclose
          · intro i rn hnone hsome
            rw [← hsb, ← hcfst] at hsome
            rw [getTracking_close_none hnone] at hsome
            cases hsome

/-- C4 witness: the frame theorem applied to the one-row store with window W
open at workstation 1 and the scan of W at workstation 2. -/
theorem c4_closes_at_most_one_witness :
    (({ rows := [openRow 1 1 "W" 0], nextId := 2 } : Store).WF ∧
     (({ rows := [openRow 1 1 "W" 0], nextId := 2 } : Store).rows.filter
        (fun r => r.lote == "W" && r.instancia == 1 && r.version == 1 &&
          r.fecha_final.isNone)).length ≤ 1) ∧
    (∃ co : Option Nat,
      (∀ (i : Nat) (r : TrackingRecord),
        getTracking { rows := [openRow 1 1 "W" 0], nextId := 2 } i = some r →
        some i ≠ co →
        getTracking (createTracking { rows := [openRow 1 1 "W" 0], nextId := 2 }
          ⟨2, "W", 1, 1, 10, none⟩ 0).1 i = some r) ∧
      (∀ j : Nat, co = some j → ∃ ro : TrackingRecord,
        getTracking { rows := [openRow 1 1 "W" 0], nextId := 2 } j = some ro ∧
        ro.fecha_final = none ∧
        ∃ rsn : String,
          getTracking (createTracking { rows := [openRow 1 1 "W" 0], nextId := 2 }
            ⟨2, "W", 1, 1, 10, none⟩ 0).1 j =
          some { ro with
                 fecha_final := some (10 : Int),
                 closure_reason := some rsn,
                 updated_at := 0 }) ∧
      (∀ (i : Nat) (rn : TrackingRecord),
        getTracking { rows := [openRow 1 1 "W" 0], nextId := 2 } i = none →
        getTracking (createTracking { rows := [openRow 1 1 "W" 0], nextId := 2 }
          ⟨2, "W", 1, 1, 10, none⟩ 0).1 i = some rn →
        rn.fecha_final = none ∧ rn.id = 2 ∧ i = 2)) :=
  ⟨⟨by decide, by decide⟩,
    c4_closes_at_most_one { rows := [openRow 1 1 "W" 0], nextId := 2 }
      ⟨2, "W", 1, 1, 10, none⟩ 0 (by decide) (by decide)⟩


theorem halfOpen_intersect_iff {s1 e1 s2 e2 : Int} (h1 : s1 < e1) (h2 : s2 < e2) :
    (∃ x : Int, (s1 ≤ x ∧ x < e1) ∧ (s2 ≤ x ∧ x < e2)) ↔ (s1 < e2 ∧ s2 < e1) := by
  constructor
  · rintro ⟨x, ⟨ha, hb⟩, ⟨hc, hd⟩⟩
    exact ⟨lt_of_le_of_lt ha hd, lt_of_le_of_lt hc hb⟩
  · rintro ⟨hx, hy⟩
    exact ⟨max s1 s2, ⟨le_max_left _ _, max_lt h1 hy⟩,
      ⟨le_max_right _ _, max_lt hx h2⟩⟩

/-- C5 (amended): `findOverlaps` returns exactly the id-ordered pairs of
intervals sharing a workstation whose coalesced ranges satisfy the strict
join conditions `inicio1 < final2` and `inicio2 < final1`; whenever every
interval of the store has `start_time` strictly before its coalesced end
(no degenerate or future-dated interval), this is exactly half-open-range
intersection, each pair carrying the overlap duration; and on the concrete
chain run 10:00 → 10:30 → 11:00 of window (TEST001,1,1) the result at noon
is empty, the three stored intervals being
[10:00,10:30,CHAIN_TRANSITION], [10:30,11:00,CHAIN_TRANSITION],
[11:00,open). -/
theorem c5_findOverlaps_characterization :
    (∀ (s : Store) (now : Timestamp) (p : OverlapRow),
      p ∈ findOverlaps s now ↔
      ∃ r1, r1 ∈ s.rows ∧ ∃ r2, r2 ∈ s.rows ∧
        r1.puesto_id = r2.puesto_id ∧ r1.id < r2.id ∧
        r1.fecha_inicio < effectiveFinal now r2 ∧
        r2.fecha_inicio < effectiveFinal now r1 ∧
        p = overlapPair now r1 r2) ∧
    (∀ (s : Store) (now : Timestamp),
      (∀ r ∈ s.rows, r.fecha_inicio < effectiveFinal now r) →
      ∀ p : OverlapRow,
        p ∈ findOverlaps s now ↔
        ∃ r1, r1 ∈ s.rows ∧ ∃ r2, r2 ∈ s.rows ∧
          r1.puesto_id = r2.puesto_id ∧ r1.id < r2.id ∧
          (∃ x : Timestamp, inHalfOpenRange now r1 x ∧ inHalfOpenRange now r2 x) ∧
          p = overlapPair now r1 r2) ∧
    (findOverlaps chainStore 43200 = [] ∧
     chainStore.rows.map (fun r => (r.fecha_inicio, r.fecha_final, r.closure_reason)) =
       [(36000, some 37800, some "CHAIN_TRANSITION"),
        (37800, some 39600, some "CHAIN_TRANSITION"),
        (39600, none, none)]) := by
  have part1 : ∀ (s : Store) (now : Timestamp) (p : OverlapRow),
      p ∈ findOverlaps s now ↔
      ∃ r1, r1 ∈ s.rows ∧ ∃ r2, r2 ∈ s.rows ∧
        r1.puesto_id = r2.puesto_id ∧ r1.id < r2.id ∧
        r1.fecha_inicio < effectiveFinal now r2 ∧
        r2.fecha_inicio < effectiveFinal now r1 ∧
        p = overlapPair now r1 r2 := by
    intro s now p
    unfold findOverlaps
    rw [List.mem_flatMap]
    constructor
    · rintro ⟨r1, hr1, hp⟩
      rw [List.mem_map] at hp
      obtain ⟨r2, hr2, rfl⟩ := hp
      rw [List.mem_filter] at hr2
      have hc := hr2.2
      unfold overlapCond at hc
      simp only [Bool.and_eq_true, beq_iff_eq, decide_eq_true_eq] at hc
      exact ⟨r1, hr1, r2, hr2.1, hc.1.1.1, hc.1.1.2, hc.1.2, hc.2, rfl⟩
    · rintro ⟨r1, hr1, r2, hr2, hp, hid, hlt1, hlt2, rfl⟩
      refine ⟨r1, hr1, ?_⟩
      rw [List.mem_map]
      refine ⟨r2, ?_, rfl⟩
      rw [List.mem_filter]
      refine ⟨hr2, ?_⟩
      unfold overlapCond
      simp only [Bool.and_eq_true, beq_iff_eq, decide_eq_true_eq]
      exact ⟨⟨⟨hp, hid⟩, hlt1⟩, hlt2⟩
  refine ⟨part1, ?_, rfl, rfl⟩
  intro s now hpos p
  rw [part1 s now p]
  constructor
  · rintro ⟨r1, hr1, r2, hr2, hp, hid, hlt1, hlt2, rfl⟩
    exact ⟨r1, hr1, r2, hr2, hp, hid,
      (halfOpen_intersect_iff (hpos r1 hr1) (hpos r2 hr2)).2 ⟨hlt1, hlt2⟩, rfl⟩
  · rintro ⟨r1, hr1, r2, hr2, hp, hid, hx, rfl⟩
    have := (halfOpen_intersect_iff (hpos r1 hr1) (hpos r2 hr2)).1 hx
    exact ⟨r1, hr1, r2, hr2, hp, hid, this.1, this.2, rfl⟩

/-- C5 witness: the range-intersection characterization applied to the
concrete chain-run store at noon, at the pair built from its first two
rows: the positivity hypothesis holds and the pair is not returned, its
ranges being disjoint. -/
theorem c5_findOverlaps_characterization_witness :
    ((∀ r ∈ chainStore.rows, r.fecha_inicio < effectiveFinal 43200 r) ∧
     ¬(overlapPair 43200 (openRow 1 1 "X" 0) (openRow 2 1 "X" 0) ∈
        findOverlaps chainStore 43200)) ∧
    (overlapPair 43200 (openRow 1 1 "X" 0) (openRow 2 1 "X" 0) ∈
        findOverlaps chainStore 43200 ↔
      ∃ r1, r1 ∈ chainStore.rows ∧ ∃ r2, r2 ∈ chainStore.rows ∧
        r1.puesto_id = r2.puesto_id ∧ r1.id < r2.id ∧
        (∃ x : Timestamp, inHalfOpenRange 43200 r1 x ∧
          inHalfOpenRange 43200 r2 x) ∧
        overlapPair 43200 (openRow 1 1 "X" 0) (openRow 2 1 "X" 0) =
          overlapPair 43200 r1 r2) :=
  ⟨⟨by decide, by decide⟩,
    c5_findOverlaps_characterization.2.1 chainStore 43200 (by decide)
      (overlapPair 43200 (openRow 1 1 "X" 0) (openRow 2 1 "X" 0))⟩

end Tracking
